import Mathlib

/-!
Verification of the Simple-language toolchain (lexer, compiler, SML virtual
machine, interpreter) of `projects/compiler_2206`.

The C sources are shallowly embedded: every C function that the claims touch
is translated into an executable Lean definition over explicit state records.
C `int` values are modelled as unbounded `Int` (no claim below exercises
32-bit overflow); C truncating division `/` and remainder `%` are
`Int.tdiv` / `Int.tmod`; C strings are Lean `String`s or `List Char`;
C arrays are Lean `List`s accessed with `getD` / `set` (all accesses the
claims exercise are bounds-checked by the C code itself).  Loops are
expressed as structural recursion on an explicit gas/fuel parameter so that
every definition computes by kernel reduction; the theorems below either
hold for every fuel or are transported with a fuel-stability lemma.
The C `double` values of the lexer and interpreter are modelled by the
exact rational type `CDouble` below; every numeric scenario exercised
below (small integer literals, comparisons, additions) is exact in IEEE
double as well, so the decisions taken by the embedded code coincide with
the C code on those runs.  `pow` on a non-integral exponent and
decimal-to-binary rounding of large literals are the only places where
the exact model and `double` can disagree; no claim depends on them.
-/

/-! ## Shared memory-cell helpers (C `int memory[100]` indexing) -/

/-- Read `m[i]` for a C `int` index; all reads performed by the embedded
code are guarded by the same bounds checks the C code performs. -/
def memGet (m : List Int) (i : Int) : Int := m.getD i.toNat 0

/-- Write `m[i] = v` for a C `int` index. -/
def memSet (m : List Int) (i : Int) (v : Int) : List Int := m.set i.toNat v

/-! ## SML virtual machine (`src/sml_vm.c`, `include/sml_vm.h`) -/

/-- `MEMORY_SIZE` from compiler.h. -/
def MEMORY_SIZE : Int := 100

/-- `MAX_CYCLES` from sml_vm.c. -/
def MAX_CYCLES : Int := 100000

/-- Opcode `SML_READ` (10). -/
def SML_READ : Int := 10

/-- Opcode `SML_WRITE` (11). -/
def SML_WRITE : Int := 11

/-- Opcode `SML_NEWLINE` (12). -/
def SML_NEWLINE : Int := 12

/-- Opcode `SML_WRITES` (13). -/
def SML_WRITES : Int := 13

/-- Opcode `SML_LOAD` (20). -/
def SML_LOAD : Int := 20

/-- Opcode `SML_STORE` (21). -/
def SML_STORE : Int := 21

/-- Opcode `SML_ADD` (30). -/
def SML_ADD : Int := 30

/-- Opcode `SML_SUBTRACT` (31). -/
def SML_SUBTRACT : Int := 31

/-- Opcode `SML_DIVIDE` (32). -/
def SML_DIVIDE : Int := 32

/-- Opcode `SML_MULTIPLY` (33). -/
def SML_MULTIPLY : Int := 33

/-- Opcode `SML_MOD` (34). -/
def SML_MOD : Int := 34

/-- Opcode `SML_BRANCH` (40). -/
def SML_BRANCH : Int := 40

/-- Opcode `SML_BRANCHNEG` (41). -/
def SML_BRANCHNEG : Int := 41

/-- Opcode `SML_BRANCHZERO` (42). -/
def SML_BRANCHZERO : Int := 42

/-- Opcode `SML_HALT` (43). -/
def SML_HALT : Int := 43

/-- The `SML_VM` struct from sml_vm.h.  `running` is a C int used as a
boolean. -/
structure SML_VM where
  memory : List Int
  accumulator : Int
  instruction_counter : Int
  instruction_register : Int
  opcode : Int
  operand : Int
  running : Bool
  cycle_count : Int
  error_message : String
deriving DecidableEq, Repr

/-- Observable I/O events of one VM step (stdout writes / the `"? "`
prompt of READ). -/
inductive VMEvent where
  | prompt : VMEvent
  | outInt : Int → VMEvent
  | outNewline : VMEvent
  | outChar : Int → VMEvent
deriving DecidableEq, Repr

/-- Result of `sml_vm_step`: new state, remaining stdin stream, emitted
output, and the C return value (1 = continue) as a Bool. -/
structure StepOut where
  vm : SML_VM
  input : List Int
  out : List VMEvent
  cont : Bool
deriving DecidableEq, Repr

/-- `sml_vm_init`: zero the whole struct (memset 0). -/
def sml_vm_init : SML_VM :=
  { memory := List.replicate 100 0
    accumulator := 0
    instruction_counter := 0
    instruction_register := 0
    opcode := 0
    operand := 0
    running := false
    cycle_count := 0
    error_message := "" }

/-- `sml_vm_load`: copy a 100-word image and reset the execution state. -/
def sml_vm_load (vm : SML_VM) (memory : List Int) : SML_VM :=
  { vm with
    memory := memory
    instruction_counter := 0
    accumulator := 0
    running := true
    cycle_count := 0
    error_message := "" }

/-- Output of the WRITES (13) instruction: `memory[operand]` is the length,
characters live at descending addresses, out-of-range cells are skipped. -/
def writesOut (mem : List Int) (str_loc : Int) : List VMEvent :=
  let len := memGet mem str_loc
  (List.range len.toNat).filterMap (fun i =>
    let ch := memGet mem (str_loc - 1 - (i : Int))
    if 0 ≤ ch ∧ ch < 256 then some (VMEvent.outChar ch) else none)

/-- Steps 5 and 6 of `sml_vm_step` (the code after the dispatch switch):
store the next PC, increment the cycle counter, stop at the cycle cap. -/
def vm_advance (vm : SML_VM) (input : List Int) (out : List VMEvent)
    (next_pc : Int) : StepOut :=
  let v := { vm with
              instruction_counter := next_pc,
              cycle_count := vm.cycle_count + 1 }
  if MAX_CYCLES ≤ v.cycle_count then
    ⟨{ v with
        error_message := "Exceeded maximum cycles (100000), possible infinite loop",
        running := false }, input, out, false⟩
  else
    ⟨v, input, out, true⟩

/-- `sml_vm_step`: one fetch-decode-execute cycle, faithful to
sml_vm.c lines 219-390.  The C switch over `opcode` becomes an equality
cascade; `input` models stdin for READ. -/
def sml_vm_step (vm : SML_VM) (input : List Int) : StepOut :=
  if vm.running = false then
    ⟨vm, input, [], false⟩
  else if vm.instruction_counter < 0 ∨ MEMORY_SIZE ≤ vm.instruction_counter then
    ⟨{ vm with
        error_message := "Invalid instruction counter: " ++ toString vm.instruction_counter,
        running := false }, input, [], false⟩
  else
    let v := { vm with instruction_register := memGet vm.memory vm.instruction_counter }
    let v := { v with
                opcode := Int.tdiv v.instruction_register 100,
                operand := Int.tmod v.instruction_register 100 }
    if v.operand < 0 ∨ MEMORY_SIZE ≤ v.operand then
      ⟨{ v with
          error_message := "Invalid operand: " ++ toString v.operand ++ " at PC=" ++
            toString v.instruction_counter,
          running := false }, input, [], false⟩
    else
      let next_pc := v.instruction_counter + 1
      if v.opcode = SML_READ then
        (if input.isEmpty then
           StepOut.mk { v with error_message := "Invalid input", running := false }
             input [VMEvent.prompt] false
         else
           vm_advance { v with memory := memSet v.memory v.operand (input.headD 0) }
             input.tail [VMEvent.prompt] next_pc)
      else if v.opcode = SML_WRITE then
        vm_advance v input [VMEvent.outInt (memGet v.memory v.operand)] next_pc
      else if v.opcode = SML_NEWLINE then
        vm_advance v input [VMEvent.outNewline] next_pc
      else if v.opcode = SML_WRITES then
        vm_advance v input (writesOut v.memory v.operand) next_pc
      else if v.opcode = SML_LOAD then
        vm_advance { v with accumulator := memGet v.memory v.operand }
          input [] next_pc
      else if v.opcode = SML_STORE then
        vm_advance { v with memory := memSet v.memory v.operand v.accumulator }
          input [] next_pc
      else if v.opcode = SML_ADD then
        vm_advance { v with accumulator := v.accumulator + memGet v.memory v.operand }
          input [] next_pc
      else if v.opcode = SML_SUBTRACT then
        vm_advance { v with accumulator := v.accumulator - memGet v.memory v.operand }
          input [] next_pc
      else if v.opcode = SML_DIVIDE then
        if memGet v.memory v.operand = 0 then
          ⟨{ v with
              error_message := "Division by zero at PC=" ++ toString v.instruction_counter,
              running := false }, input, [], false⟩
        else
          vm_advance { v with accumulator := Int.tdiv v.accumulator (memGet v.memory v.operand) }
            input [] next_pc
      else if v.opcode = SML_MULTIPLY then
        vm_advance { v with accumulator := v.accumulator * memGet v.memory v.operand }
          input [] next_pc
      else if v.opcode = SML_MOD then
        if memGet v.memory v.operand = 0 then
          ⟨{ v with
              error_message := "Modulo by zero at PC=" ++ toString v.instruction_counter,
              running := false }, input, [], false⟩
        else
          vm_advance { v with accumulator := Int.tmod v.accumulator (memGet v.memory v.operand) }
            input [] next_pc
      else if v.opcode = SML_BRANCH then
        vm_advance v input [] v.operand
      else if v.opcode = SML_BRANCHNEG then
        vm_advance v input [] (if v.accumulator < 0 then v.operand else next_pc)
      else if v.opcode = SML_BRANCHZERO then
        vm_advance v input [] (if v.accumulator = 0 then v.operand else next_pc)
      else if v.opcode = SML_HALT then
        ⟨{ v with running := false }, input, [], false⟩
      else
        ⟨{ v with
            error_message := "Unknown opcode " ++ toString v.opcode ++ " at PC=" ++
              toString v.instruction_counter,
            running := false }, input, [], false⟩

/-- Result of `sml_vm_run`: final state, remaining stdin, emitted output. -/
structure RunOut where
  vm : SML_VM
  input : List Int
  out : List VMEvent
deriving DecidableEq, Repr

/-- `sml_vm_run`: iterate `sml_vm_step` while `running`, stopping when a
step returns 0.  The C `while` loop always terminates (theorem
`C9_cycle_cap_progress` below); the explicit fuel only makes the
recursion structural, and any fuel beyond the cycle cap yields the same
result. -/
def sml_vm_run : Nat → SML_VM → List Int → RunOut
  | 0, vm, input => ⟨vm, input, []⟩
  | fuel + 1, vm, input =>
    if vm.running then
      let r := sml_vm_step vm input
      if r.cont then
        let rest := sml_vm_run fuel r.vm r.input
        ⟨rest.vm, rest.input, r.out ++ rest.out⟩
      else
        ⟨r.vm, r.input, r.out⟩
    else
      ⟨vm, input, []⟩

/-! ## Exact model of C `double` values

The toolchain stores numeric values in C `double`s.  They are modelled as
exact unnormalised rationals (an integer numerator with a positive integer
denominator); all operations below are plain integer arithmetic, so every
definition computes by kernel reduction.  On the value range the claims
exercise (small integers and halting decisions on them) IEEE doubles are
exact as well, so the embedded decisions coincide with the C ones;
`pow` on a non-integral exponent (irrational in general) is the one
unmodelled operation, and no claim touches it. -/

/-- A C `double` as an exact rational: `num / den` with `den > 0` for
every value the embedded code constructs. -/
structure CDouble where
  num : Int
  den : Int
deriving DecidableEq, Repr

/-- An integer as a double. -/
def CDouble.ofInt (n : Int) : CDouble := ⟨n, 1⟩

/-- Double addition (exact). -/
def dAdd (a b : CDouble) : CDouble :=
  ⟨a.num * b.den + b.num * a.den, a.den * b.den⟩

/-- Double subtraction (exact). -/
def dSub (a b : CDouble) : CDouble :=
  ⟨a.num * b.den - b.num * a.den, a.den * b.den⟩

/-- Double multiplication (exact). -/
def dMul (a b : CDouble) : CDouble := ⟨a.num * b.num, a.den * b.den⟩

/-- Double negation. -/
def dNeg (a : CDouble) : CDouble := ⟨-a.num, a.den⟩

/-- Double division (exact; callers guard against a zero divisor), keeping
the denominator positive. -/
def dDiv (a b : CDouble) : CDouble :=
  if b.num < 0 then ⟨-(a.num * b.den), a.den * (-b.num)⟩
  else ⟨a.num * b.den, a.den * b.num⟩

/-- The C comparison `x == 0`. -/
def dIsZero (a : CDouble) : Bool := a.num = 0

/-- The C comparison `==` on doubles (cross multiplication; valid for the
positive denominators the code constructs). -/
def dEq (a b : CDouble) : Bool := a.num * b.den = b.num * a.den

/-- The C comparison `<` on doubles. -/
def dLt (a b : CDouble) : Bool := a.num * b.den < b.num * a.den

/-- The C comparison `<=` on doubles. -/
def dLe (a b : CDouble) : Bool := a.num * b.den ≤ b.num * a.den

/-- C cast `(int)` applied to a double: truncation toward zero. -/
def double2int (a : CDouble) : Int := Int.tdiv a.num a.den

/-- The reciprocal, keeping the denominator positive. -/
def dInv (a : CDouble) : CDouble :=
  if a.num < 0 then ⟨-a.den, -a.num⟩ else ⟨a.den, a.num⟩

/-- C `pow` restricted to integral exponents (exact in this model); a
non-integral exponent is not modelled — no claim exercises it. -/
def dPow (b e : CDouble) : CDouble :=
  if Int.tmod e.num e.den = 0 then
    let k := double2int e
    if 0 ≤ k then ⟨b.num ^ k.toNat, b.den ^ k.toNat⟩
    else dInv ⟨b.num ^ (-k).toNat, b.den ^ (-k).toNat⟩
  else ⟨0, 1⟩

/-- C `fmod` (exact, like IEEE `fmod`): `x - trunc(x / y) * y`. -/
def dFmod (x y : CDouble) : CDouble :=
  dSub x (dMul (CDouble.ofInt (double2int (dDiv x y))) y)

/-! ## Lexer (`src/lexer.c`, `include/lexer.h`, `include/token.h`) -/

/-- `TokenType` from token.h. -/
inductive TokenType where
  | TOKEN_EOF
  | TOKEN_ERROR
  | TOKEN_NEWLINE
  | TOKEN_NUMBER
  | TOKEN_FLOAT
  | TOKEN_STRING
  | TOKEN_IDENT
  | TOKEN_REM
  | TOKEN_INPUT
  | TOKEN_PRINT
  | TOKEN_LET
  | TOKEN_GOTO
  | TOKEN_IF
  | TOKEN_FOR
  | TOKEN_TO
  | TOKEN_STEP
  | TOKEN_NEXT
  | TOKEN_END
  | TOKEN_PLUS
  | TOKEN_MINUS
  | TOKEN_STAR
  | TOKEN_SLASH
  | TOKEN_PERCENT
  | TOKEN_CARET
  | TOKEN_ASSIGN
  | TOKEN_EQ
  | TOKEN_NE
  | TOKEN_LT
  | TOKEN_GT
  | TOKEN_LE
  | TOKEN_GE
  | TOKEN_COMMA
  | TOKEN_LPAREN
  | TOKEN_RPAREN
deriving DecidableEq, Repr

/-- The `Token` struct from token.h.  `text` is the C char buffer as a char
list (capped at 255 characters exactly as the C code does); the C `double`
field `num_value` is modelled as an exact rational. -/
structure Token where
  type : TokenType
  text : List Char
  num_value : CDouble
  line : Int
  column : Int
deriving DecidableEq, Repr

/-- The `Lexer` struct from lexer.h.  The C `start` / `current` pointers
into `source` become indices. -/
structure Lexer where
  source : List Char
  start : Nat
  current : Nat
  line : Int
  column : Int
deriving DecidableEq, Repr

/-- The C string terminator; reading past the end of `source` yields it,
exactly as reading the terminating `0` byte of a C string does. -/
def NUL : Char := Char.ofNat 0

/-- `lexer_init`. -/
def lexer_init (source : List Char) : Lexer :=
  { source := source, start := 0, current := 0, line := 1, column := 1 }

/-- `is_at_end`: `*current == 0`.  (Sources contain no interior 0 byte.) -/
def is_at_end (l : Lexer) : Bool := l.source.getD l.current NUL = NUL

/-- `advance` from lexer.c (named apart from `Lexer`-independent helpers):
consume the current character. -/
def lexAdvance (l : Lexer) : Char × Lexer :=
  (l.source.getD l.current NUL,
   { l with column := l.column + 1, current := l.current + 1 })

/-- `peek` from lexer.c. -/
def lexPeek (l : Lexer) : Char := l.source.getD l.current NUL

/-- `peek_next` from lexer.c. -/
def peek_next (l : Lexer) : Char :=
  if is_at_end l then NUL else l.source.getD (l.current + 1) NUL

/-- `match` from lexer.c (renamed: `match` is a Lean keyword). -/
def lexMatch (l : Lexer) (expected : Char) : Bool × Lexer :=
  if is_at_end l then (false, l)
  else if l.source.getD l.current NUL ≠ expected then (false, l)
  else (true, { l with current := l.current + 1, column := l.column + 1 })

/-- `skip_whitespace`: the C `while` loop as gas recursion (the gas passed
by callers always exceeds the remaining character count). -/
def skip_whitespace : Nat → Lexer → Lexer
  | 0, l => l
  | gas + 1, l =>
    let c := lexPeek l
    if c = ' ' ∨ c = '\t' ∨ c = '\r' then skip_whitespace gas (lexAdvance l).2
    else l

/-- `make_token`: text is `source[start..current)` capped at 255 chars; the
column is the token start column. -/
def make_token (l : Lexer) (type : TokenType) : Token :=
  let length := min (l.current - l.start) 255
  { type := type
    line := l.line
    column := l.column - ((l.current : Int) - (l.start : Int))
    num_value := CDouble.ofInt 0
    text := (l.source.drop l.start).take length }

/-- `error_token`: an ERROR token carrying the diagnostic text. -/
def error_token (l : Lexer) (message : List Char) : Token :=
  { type := TokenType.TOKEN_ERROR
    line := l.line
    column := l.column
    num_value := CDouble.ofInt 0
    text := message.take 255 }

/-- C `isdigit` (ASCII). -/
def isdigit (c : Char) : Bool := decide ('0' ≤ c ∧ c ≤ '9')

/-- C `isalpha` (ASCII). -/
def isalpha (c : Char) : Bool :=
  decide (('a' ≤ c ∧ c ≤ 'z') ∨ ('A' ≤ c ∧ c ≤ 'Z'))

/-- C `isalnum` (ASCII). -/
def isalnum (c : Char) : Bool := isdigit c || isalpha c

/-- C `tolower` (ASCII). -/
def tolower (c : Char) : Char :=
  if 'A' ≤ c ∧ c ≤ 'Z' then Char.ofNat (c.toNat + 32) else c

/-- Decimal digit run to a natural number. -/
def digitsToNat (cs : List Char) : Nat :=
  cs.foldl (fun a c => a * 10 + (c.toNat - 48)) 0

/-- C `strtod` restricted to the texts `scan_number` produces
(`digits` or `digits.digits`): the exact decimal value. -/
def strtod (cs : List Char) : CDouble :=
  let intPart := cs.takeWhile (fun c => isdigit c)
  let rest := cs.drop intPart.length
  if rest.headD NUL = '.' then
    let frac := rest.tail.takeWhile (fun c => isdigit c)
    ⟨(digitsToNat intPart : Int) * (10 : Int) ^ frac.length +
       (digitsToNat frac : Int), (10 : Int) ^ frac.length⟩
  else
    ⟨(digitsToNat intPart : Int), 1⟩

/-- The digit-run loop shared by the two loops of `scan_number`. -/
def scan_digits : Nat → Lexer → Lexer
  | 0, l => l
  | gas + 1, l =>
    if isdigit (lexPeek l) then scan_digits gas (lexAdvance l).2 else l

/-- `scan_number`: integer part, optional `.digits` part (only when a digit
follows the dot), numeric value via `strtod`. -/
def scan_number (l : Lexer) : Token × Lexer :=
  let l := scan_digits (l.source.length + 1) l
  if lexPeek l = '.' ∧ isdigit (peek_next l) then
    let l := (lexAdvance l).2
    let l := scan_digits (l.source.length + 1) l
    let token := make_token l TokenType.TOKEN_FLOAT
    ({ token with num_value := strtod token.text }, l)
  else
    let token := make_token l TokenType.TOKEN_NUMBER
    ({ token with num_value := strtod token.text }, l)

/-- The scanning loop of `scan_string`: stop at the closing quote, at a
line feed (strings cannot span lines) or at the end of input. -/
def scan_string_loop : Nat → Lexer → Lexer
  | 0, l => l
  | gas + 1, l =>
    if lexPeek l ≠ '"' ∧ is_at_end l = false then
      if lexPeek l = '\n' then l else scan_string_loop gas (lexAdvance l).2
    else l

/-- `scan_string`: the opening quote is already consumed; produce a STRING
token including both quotes, or an ERROR token "Unterminated string". -/
def scan_string (l : Lexer) : Token × Lexer :=
  let l := scan_string_loop (l.source.length + 1) l
  if lexPeek l = '\n' ∧ is_at_end l = false then
    (error_token l "Unterminated string".toList, l)
  else if is_at_end l then
    (error_token l "Unterminated string".toList, l)
  else
    let l := (lexAdvance l).2
    (make_token l TokenType.TOKEN_STRING, l)

/-- The identifier-character loop of `scan_identifier`. -/
def scan_ident_loop : Nat → Lexer → Lexer
  | 0, l => l
  | gas + 1, l =>
    if isalnum (lexPeek l) ∨ lexPeek l = '_' then
      scan_ident_loop gas (lexAdvance l).2
    else l

/-- The keyword table from lexer.c. -/
def keywords : List (List Char × TokenType) :=
  [("rem".toList, TokenType.TOKEN_REM),
   ("input".toList, TokenType.TOKEN_INPUT),
   ("print".toList, TokenType.TOKEN_PRINT),
   ("let".toList, TokenType.TOKEN_LET),
   ("goto".toList, TokenType.TOKEN_GOTO),
   ("if".toList, TokenType.TOKEN_IF),
   ("for".toList, TokenType.TOKEN_FOR),
   ("to".toList, TokenType.TOKEN_TO),
   ("step".toList, TokenType.TOKEN_STEP),
   ("next".toList, TokenType.TOKEN_NEXT),
   ("end".toList, TokenType.TOKEN_END)]

/-- C `strcasecmp(a, b) == 0` (ASCII case-insensitive equality). -/
def strcasecmp_eq (a b : List Char) : Bool :=
  decide (a.map tolower = b.map tolower)

/-- `scan_identifier`: scan the identifier characters, then fold to a
keyword token on a case-insensitive match. -/
def scan_identifier (l : Lexer) : Token × Lexer :=
  let l := scan_ident_loop (l.source.length + 1) l
  let token := make_token l TokenType.TOKEN_IDENT
  match keywords.find? (fun kw => strcasecmp_eq token.text kw.1) with
  | some kw => ({ token with type := kw.2 }, l)
  | none => (token, l)

/-- An ASCII single quote, used to spell the C lexer diagnostic texts. -/
def SQ : String := String.mk [Char.ofNat 39]

/-- `lexer_next_token`: the main scanning function, faithful to lexer.c
lines 566-643. -/
def lexer_next_token (l : Lexer) : Token × Lexer :=
  let l := skip_whitespace (l.source.length + 1) l
  let l := { l with start := l.current }
  if is_at_end l then (make_token l TokenType.TOKEN_EOF, l)
  else
    let r := lexAdvance l
    let c := r.1
    let l := r.2
    if c = '\n' then
      let token := make_token l TokenType.TOKEN_NEWLINE
      (token, { l with line := l.line + 1, column := 1 })
    else if isdigit c then scan_number l
    else if isalpha c ∨ c = '_' then scan_identifier l
    else if c = '"' then scan_string l
    else if c = '+' then (make_token l TokenType.TOKEN_PLUS, l)
    else if c = '-' then (make_token l TokenType.TOKEN_MINUS, l)
    else if c = '*' then (make_token l TokenType.TOKEN_STAR, l)
    else if c = '/' then (make_token l TokenType.TOKEN_SLASH, l)
    else if c = '%' then (make_token l TokenType.TOKEN_PERCENT, l)
    else if c = '^' then (make_token l TokenType.TOKEN_CARET, l)
    else if c = ',' then (make_token l TokenType.TOKEN_COMMA, l)
    else if c = '(' then (make_token l TokenType.TOKEN_LPAREN, l)
    else if c = ')' then (make_token l TokenType.TOKEN_RPAREN, l)
    else if c = '=' then
      let mr := lexMatch l '='
      let m := mr.1
      let l := mr.2
      (make_token l (if m then TokenType.TOKEN_EQ else TokenType.TOKEN_ASSIGN), l)
    else if c = '!' then
      let mr := lexMatch l '='
      let m := mr.1
      let l := mr.2
      if m then (make_token l TokenType.TOKEN_NE, l)
      else (error_token l ("Expected " ++ SQ ++ "=" ++ SQ ++ " after " ++ SQ ++ "!" ++ SQ).toList, l)
    else if c = '<' then
      let mr := lexMatch l '='
      let m := mr.1
      let l := mr.2
      (make_token l (if m then TokenType.TOKEN_LE else TokenType.TOKEN_LT), l)
    else if c = '>' then
      let mr := lexMatch l '='
      let m := mr.1
      let l := mr.2
      (make_token l (if m then TokenType.TOKEN_GE else TokenType.TOKEN_GT), l)
    else (error_token l "Unexpected character".toList, l)

/-- `lexer_peek_token`: save the four mutable fields, scan, restore. -/
def lexer_peek_token (l : Lexer) : Token × Lexer :=
  let saved_start := l.start
  let saved_current := l.current
  let saved_line := l.line
  let saved_column := l.column
  let r := lexer_next_token l
  (r.1, { r.2 with
           start := saved_start,
           current := saved_current,
           line := saved_line,
           column := saved_column })

/-- `lexer_reset_line`: reposition to a line start; column resets to 1,
the line counter is left untouched. -/
def lexer_reset_line (l : Lexer) (line_start : Nat) : Lexer :=
  { l with start := line_start, current := line_start, column := 1 }

/-- `token_type_name` from lexer.c. -/
def token_type_name (t : TokenType) : String :=
  match t with
  | TokenType.TOKEN_EOF => "EOF"
  | TokenType.TOKEN_ERROR => "ERROR"
  | TokenType.TOKEN_NEWLINE => "NEWLINE"
  | TokenType.TOKEN_NUMBER => "NUMBER"
  | TokenType.TOKEN_FLOAT => "FLOAT"
  | TokenType.TOKEN_STRING => "STRING"
  | TokenType.TOKEN_IDENT => "IDENT"
  | TokenType.TOKEN_REM => "REM"
  | TokenType.TOKEN_INPUT => "INPUT"
  | TokenType.TOKEN_PRINT => "PRINT"
  | TokenType.TOKEN_LET => "LET"
  | TokenType.TOKEN_GOTO => "GOTO"
  | TokenType.TOKEN_IF => "IF"
  | TokenType.TOKEN_FOR => "FOR"
  | TokenType.TOKEN_TO => "TO"
  | TokenType.TOKEN_STEP => "STEP"
  | TokenType.TOKEN_NEXT => "NEXT"
  | TokenType.TOKEN_END => "END"
  | TokenType.TOKEN_PLUS => "PLUS"
  | TokenType.TOKEN_MINUS => "MINUS"
  | TokenType.TOKEN_STAR => "STAR"
  | TokenType.TOKEN_SLASH => "SLASH"
  | TokenType.TOKEN_PERCENT => "PERCENT"
  | TokenType.TOKEN_CARET => "CARET"
  | TokenType.TOKEN_ASSIGN => "ASSIGN"
  | TokenType.TOKEN_EQ => "EQ"
  | TokenType.TOKEN_NE => "NE"
  | TokenType.TOKEN_LT => "LT"
  | TokenType.TOKEN_GT => "GT"
  | TokenType.TOKEN_LE => "LE"
  | TokenType.TOKEN_GE => "GE"
  | TokenType.TOKEN_COMMA => "COMMA"
  | TokenType.TOKEN_LPAREN => "LPAREN"
  | TokenType.TOKEN_RPAREN => "RPAREN"

/-! ## Compiler (`src/compiler.c`, `include/compiler.h`) -/

/-- `MAX_SYMBOLS` from compiler.h. -/
def MAX_SYMBOLS : Nat := 100

/-- `MAX_FLAGS` from compiler.h. -/
def MAX_FLAGS : Nat := 100

/-- `MAX_FOR_DEPTH` from compiler.h (and interpreter.h). -/
def MAX_FOR_DEPTH : Nat := 10

/-- `MAX_STRINGS` from compiler.h. -/
def MAX_STRINGS : Nat := 50

/-- `MAX_STRING_LEN` from compiler.h. -/
def MAX_STRING_LEN : Nat := 64

/-- `SymbolType` from compiler.h. -/
inductive SymbolType where
  | SYMBOL_LINE
  | SYMBOL_VARIABLE
  | SYMBOL_CONSTANT
  | SYMBOL_ARRAY
  | SYMBOL_STRING
deriving DecidableEq, Repr

/-- `Symbol` from compiler.h (named `CSymbol`: `Symbol` exists upstream) (`size` is only meaningful for arrays and is
zero-initialised like the C struct). -/
structure CSymbol where
  type : SymbolType
  symbol : Int
  location : Int
  size : Int
deriving DecidableEq, Repr

/-- `Flag` from compiler.h (named `CFlag`: `Flag` exists upstream): one unresolved forward reference. -/
structure CFlag where
  instruction_location : Int
  target_line_number : Int
deriving DecidableEq, Repr

/-- `ForCompileState` from compiler.h. -/
structure ForCompileState where
  var : Char
  var_location : Int
  end_location : Int
  step_location : Int
  loop_start : Int
  step_is_negative : Bool
deriving DecidableEq, Repr

/-- `StringEntry` from compiler.h. -/
structure StringEntry where
  text : List Char
  location : Int
deriving DecidableEq, Repr

/-- The `Compiler` struct from compiler.h.  The C fixed arrays with their
counters (`symbols`/`symbol_count`, `flags`/`flag_count`,
`for_stack`/`for_depth`, `strings`/`string_count`) become lists whose
length is the counter; the C source pointer lives inside `lexer.source`. -/
structure Compiler where
  lexer : Lexer
  current_token : Token
  symbols : List CSymbol
  flags : List CFlag
  for_stack : List ForCompileState
  strings : List StringEntry
  memory : List Int
  instruction_counter : Int
  data_counter : Int
  current_line_number : Int
  error_message : String
  has_error : Bool
deriving DecidableEq, Repr

/-- `var_index` (shared verbatim by compiler.c and interpreter.c):
`a`..`z` (case-insensitively) to 0..25, otherwise -1. -/
def var_index (c : Char) : Int :=
  let c := tolower c
  if 'a' ≤ c ∧ c ≤ 'z' then (c.toNat : Int) - 97 else -1

/-- `set_error` from compiler.c (the printf formatting is done at each
call site). -/
def compiler_set_error (comp : Compiler) (msg : String) : Compiler :=
  { comp with error_message := msg, has_error := true }

/-- `advance_token` from compiler.c. -/
def compiler_advance_token (comp : Compiler) : Compiler :=
  let r := lexer_next_token comp.lexer
  { comp with current_token := r.1, lexer := r.2 }

/-- `emit`: write one instruction at `instruction_counter` unless the code
and data regions would collide. -/
def emit (comp : Compiler) (instruction : Int) : Compiler :=
  if comp.data_counter ≤ comp.instruction_counter then
    compiler_set_error comp "Memory overflow: code and data collision"
  else
    { comp with
        memory := memSet comp.memory comp.instruction_counter instruction,
        instruction_counter := comp.instruction_counter + 1 }

/-- `alloc_data`: hand out the current data cell (counting downward),
or -1 with the collision error. -/
def alloc_data (comp : Compiler) : Int × Compiler :=
  if comp.data_counter ≤ comp.instruction_counter then
    (-1, compiler_set_error comp "Memory overflow: code and data collision")
  else
    (comp.data_counter, { comp with data_counter := comp.data_counter - 1 })

/-- `find_symbol`: first entry matching `(type, symbol)`. -/
def find_symbol (comp : Compiler) (type : SymbolType) (symbol : Int) : Option CSymbol :=
  comp.symbols.find? (fun s => s.type = type ∧ s.symbol = symbol)

/-- `add_symbol`: append an entry (the C `size` field stays 0 until an
array creation overwrites it); the Bool mirrors the C non-NULL result. -/
def add_symbol (comp : Compiler) (type : SymbolType) (symbol : Int)
    (location : Int) : Bool × Compiler :=
  if MAX_SYMBOLS ≤ comp.symbols.length then
    (false, compiler_set_error comp "Symbol table overflow")
  else
    (true, { comp with
              symbols := comp.symbols ++
                [{ type := type, symbol := symbol, location := location, size := 0 }] })

/-- `get_or_create_variable`. -/
def get_or_create_variable (comp : Compiler) (var_idx : Int) : Int × Compiler :=
  match find_symbol comp SymbolType.SYMBOL_VARIABLE var_idx with
  | some sym => (sym.location, comp)
  | none =>
    let (loc, comp) := alloc_data comp
    if 0 ≤ loc then
      (loc, (add_symbol comp SymbolType.SYMBOL_VARIABLE var_idx loc).2)
    else
      (loc, comp)

/-- `get_or_create_constant`: also writes the constant value into the
allocated cell. -/
def get_or_create_constant (comp : Compiler) (value : Int) : Int × Compiler :=
  match find_symbol comp SymbolType.SYMBOL_CONSTANT value with
  | some sym => (sym.location, comp)
  | none =>
    let (loc, comp) := alloc_data comp
    if 0 ≤ loc then
      let comp := (add_symbol comp SymbolType.SYMBOL_CONSTANT value loc).2
      (loc, { comp with memory := memSet comp.memory loc value })
    else
      (loc, comp)

/-- `add_flag`: record an unresolved forward reference. -/
def add_flag (comp : Compiler) (instruction_loc : Int) (target_line : Int) : Compiler :=
  if MAX_FLAGS ≤ comp.flags.length then
    compiler_set_error comp "Too many unresolved references"
  else
    { comp with
        flags := comp.flags ++
          [{ instruction_location := instruction_loc, target_line_number := target_line }] }

/-- The allocation loop of `get_or_create_array` (`size` iterations of
`alloc_data`, stopping early on failure, partial allocations kept). -/
def array_alloc_loop : Nat → Compiler → Bool × Compiler
  | 0, comp => (true, comp)
  | n + 1, comp =>
    let (loc, comp) := alloc_data comp
    if loc < 0 then (false, comp) else array_alloc_loop n comp

/-- `get_or_create_array`: allocate a contiguous descending run whose base
is the pre-allocation data counter, then record the symbol with its size. -/
def get_or_create_array (comp : Compiler) (var_idx : Int) (size : Int) : Int × Compiler :=
  match find_symbol comp SymbolType.SYMBOL_ARRAY var_idx with
  | some sym => (sym.location, comp)
  | none =>
    let base_loc := comp.data_counter
    let (ok, comp) := array_alloc_loop size.toNat comp
    if ok = false then (-1, comp)
    else
      let (added, comp) := add_symbol comp SymbolType.SYMBOL_ARRAY var_idx base_loc
      if added then
        (base_loc, { comp with
                      symbols := comp.symbols.dropLast ++
                        ((comp.symbols.getLast?.map (fun s => { s with size := size })).toList) })
      else
        (base_loc, comp)

/-- The character-storing loop of `store_string`
(`for i < len && i < MAX_STRING_LEN - 1: memory[data_counter--] = str[i]`). -/
def store_string_chars : List Char → Nat → Compiler → Compiler
  | [], _, comp => comp
  | _, 0, comp => comp
  | ch :: rest, n + 1, comp =>
    let comp := { comp with
                   memory := memSet comp.memory comp.data_counter (ch.toNat : Int),
                   data_counter := comp.data_counter - 1 }
    store_string_chars rest n comp

/-- `store_string`: strip the surrounding quotes, intern on exact text,
then store `[length][chars...]` at descending addresses.  Note that unlike
`emit`/`alloc_data` this function performs no code/data collision check. -/
def store_string (comp : Compiler) (str : List Char) : Int × Compiler :=
  let stripped :=
    if 2 ≤ str.length ∧ str.headD NUL = '"' ∧ str.getLastD NUL = '"' then
      (str.drop 1).dropLast
    else str
  match comp.strings.find? (fun e => e.text = stripped) with
  | some e => (e.location, comp)
  | none =>
    if MAX_STRINGS ≤ comp.strings.length then
      (-1, compiler_set_error comp "Too many string constants")
    else
      let start_loc := comp.data_counter
      let comp := { comp with
                     memory := memSet comp.memory comp.data_counter (stripped.length : Int),
                     data_counter := comp.data_counter - 1 }
      let comp := store_string_chars stripped (MAX_STRING_LEN - 1) comp
      let comp := { comp with
                     strings := comp.strings ++
                       [{ text := stripped, location := start_loc }] }
      (start_loc, comp)


/-- Selector for the mutually recursive expression-compiling functions of
compiler.c (`compile_expression` / `compile_term` / `compile_power` /
`compile_unary` / `compile_primary`); the two `Loop` tags are the `while`
loops inside `compile_expression` and `compile_term`. -/
inductive CExpr where
  | expr
  | exprLoop
  | term
  | termLoop
  | power
  | unary
  | primary
deriving DecidableEq, Repr

/-- The expression compiler of compiler.c (lines 393-664) as one
gas-indexed recursion over the `CExpr` selector.  Every branch is a direct
transcription of the corresponding C function. -/
def compileExpr : Nat → CExpr → Compiler → Compiler
  | 0, _, comp => comp
  | gas + 1, CExpr.expr, comp =>
    let comp := compileExpr gas CExpr.term comp
    compileExpr gas CExpr.exprLoop comp
  | gas + 1, CExpr.exprLoop, comp =>
    if comp.has_error = false ∧
        (comp.current_token.type = TokenType.TOKEN_PLUS ∨
         comp.current_token.type = TokenType.TOKEN_MINUS) then
      let op := comp.current_token.type
      let comp := compiler_advance_token comp
      let (temp, comp) := alloc_data comp
      let comp := emit comp (SML_STORE * 100 + temp)
      let comp := compileExpr gas CExpr.term comp
      let (temp2, comp) := alloc_data comp
      let comp := emit comp (SML_STORE * 100 + temp2)
      let comp := emit comp (SML_LOAD * 100 + temp)
      let comp :=
        if op = TokenType.TOKEN_PLUS then emit comp (SML_ADD * 100 + temp2)
        else emit comp (SML_SUBTRACT * 100 + temp2)
      compileExpr gas CExpr.exprLoop comp
    else comp
  | gas + 1, CExpr.term, comp =>
    let comp := compileExpr gas CExpr.power comp
    compileExpr gas CExpr.termLoop comp
  | gas + 1, CExpr.termLoop, comp =>
    if comp.has_error = false ∧
        (comp.current_token.type = TokenType.TOKEN_STAR ∨
         comp.current_token.type = TokenType.TOKEN_SLASH ∨
         comp.current_token.type = TokenType.TOKEN_PERCENT) then
      let op := comp.current_token.type
      let comp := compiler_advance_token comp
      let (temp, comp) := alloc_data comp
      let comp := emit comp (SML_STORE * 100 + temp)
      let comp := compileExpr gas CExpr.power comp
      let (temp2, comp) := alloc_data comp
      let comp := emit comp (SML_STORE * 100 + temp2)
      let comp := emit comp (SML_LOAD * 100 + temp)
      let comp :=
        if op = TokenType.TOKEN_STAR then emit comp (SML_MULTIPLY * 100 + temp2)
        else if op = TokenType.TOKEN_SLASH then emit comp (SML_DIVIDE * 100 + temp2)
        else emit comp (SML_MOD * 100 + temp2)
      compileExpr gas CExpr.termLoop comp
    else comp
  | gas + 1, CExpr.power, comp =>
    let comp := compileExpr gas CExpr.unary comp
    if comp.has_error = false ∧ comp.current_token.type = TokenType.TOKEN_CARET then
      let comp := compiler_advance_token comp
      let (base_loc, comp) := alloc_data comp
      let comp := emit comp (SML_STORE * 100 + base_loc)
      let comp := compileExpr gas CExpr.unary comp
      let (exp_loc, comp) := alloc_data comp
      let comp := emit comp (SML_STORE * 100 + exp_loc)
      let (result_loc, comp) := alloc_data comp
      let (one_loc, comp) := get_or_create_constant comp 1
      let comp := emit comp (SML_LOAD * 100 + one_loc)
      let comp := emit comp (SML_STORE * 100 + result_loc)
      let loop_start := comp.instruction_counter
      let comp := emit comp (SML_LOAD * 100 + exp_loc)
      let branch_loc := comp.instruction_counter
      let comp := emit comp (SML_BRANCHZERO * 100 + 0)
      let comp := emit comp (SML_BRANCHNEG * 100 + 0)
      let comp := emit comp (SML_LOAD * 100 + result_loc)
      let comp := emit comp (SML_MULTIPLY * 100 + base_loc)
      let comp := emit comp (SML_STORE * 100 + result_loc)
      let comp := emit comp (SML_LOAD * 100 + exp_loc)
      let comp := emit comp (SML_SUBTRACT * 100 + one_loc)
      let comp := emit comp (SML_STORE * 100 + exp_loc)
      let comp := emit comp (SML_BRANCH * 100 + loop_start)
      let loop_end := comp.instruction_counter
      let comp := { comp with
                     memory := memSet comp.memory branch_loc
                       (SML_BRANCHZERO * 100 + loop_end) }
      let comp := { comp with
                     memory := memSet comp.memory (branch_loc + 1)
                       (SML_BRANCHNEG * 100 + loop_end) }
      emit comp (SML_LOAD * 100 + result_loc)
    else comp
  | gas + 1, CExpr.unary, comp =>
    if comp.current_token.type = TokenType.TOKEN_MINUS then
      let comp := compiler_advance_token comp
      let comp := compileExpr gas CExpr.unary comp
      let (zero_loc, comp) := get_or_create_constant comp 0
      let (temp, comp) := alloc_data comp
      let comp := emit comp (SML_STORE * 100 + temp)
      let comp := emit comp (SML_LOAD * 100 + zero_loc)
      emit comp (SML_SUBTRACT * 100 + temp)
    else if comp.current_token.type = TokenType.TOKEN_PLUS then
      let comp := compiler_advance_token comp
      compileExpr gas CExpr.unary comp
    else
      compileExpr gas CExpr.primary comp
  | gas + 1, CExpr.primary, comp =>
    let token := comp.current_token
    if token.type = TokenType.TOKEN_NUMBER ∨ token.type = TokenType.TOKEN_FLOAT then
      let value := double2int token.num_value
      let (loc, comp) := get_or_create_constant comp value
      let comp := emit comp (SML_LOAD * 100 + loc)
      compiler_advance_token comp
    else if token.type = TokenType.TOKEN_IDENT then
      let idx := var_index (token.text.headD NUL)
      if idx < 0 then
        compiler_set_error comp ("Invalid variable: " ++ String.mk token.text)
      else
        let comp := compiler_advance_token comp
        if comp.current_token.type = TokenType.TOKEN_LPAREN then
          let comp := compiler_advance_token comp
          if comp.current_token.type ≠ TokenType.TOKEN_NUMBER then
            compiler_set_error comp "Array index must be a constant (SML limitation)"
          else
            let array_idx := double2int comp.current_token.num_value
            let comp := compiler_advance_token comp
            if comp.current_token.type ≠ TokenType.TOKEN_RPAREN then
              compiler_set_error comp
                ("Expected " ++ SQ ++ ")" ++ SQ ++ " after array index")
            else
              let comp := compiler_advance_token comp
              let comp :=
                match find_symbol comp SymbolType.SYMBOL_ARRAY idx with
                | some _ => comp
                | none =>
                  let size := if 10 < array_idx + 1 then array_idx + 1 else 10
                  (get_or_create_array comp idx size).2
              match find_symbol comp SymbolType.SYMBOL_ARRAY idx with
              | none => compiler_set_error comp "Failed to create array"
              | some arr =>
                if array_idx < 0 ∨ arr.size ≤ array_idx then
                  compiler_set_error comp
                    ("Array index " ++ toString array_idx ++
                     " out of bounds (0-" ++ toString (arr.size - 1) ++ ")")
                else
                  let elem_loc := arr.location - array_idx
                  emit comp (SML_LOAD * 100 + elem_loc)
        else
          let (loc, comp) := get_or_create_variable comp idx
          emit comp (SML_LOAD * 100 + loc)
    else if token.type = TokenType.TOKEN_LPAREN then
      let comp := compiler_advance_token comp
      let comp := compileExpr gas CExpr.expr comp
      if comp.current_token.type ≠ TokenType.TOKEN_RPAREN then
        compiler_set_error comp ("Expected " ++ SQ ++ ")" ++ SQ)
      else
        compiler_advance_token comp
    else
      compiler_set_error comp
        ("Unexpected token in expression: " ++ String.mk token.text)

/-- `compile_rem`: comments emit nothing. -/
def compile_rem (comp : Compiler) : Compiler := comp

/-- The do-while loop of `compile_input`. -/
def compile_input_loop : Nat → Compiler → Compiler
  | 0, comp => comp
  | gas + 1, comp =>
    let comp :=
      if comp.current_token.type = TokenType.TOKEN_COMMA then
        compiler_advance_token comp
      else comp
    if comp.current_token.type ≠ TokenType.TOKEN_IDENT then
      compiler_set_error comp ("Expected variable after " ++ SQ ++ "input" ++ SQ)
    else
      let idx := var_index (comp.current_token.text.headD NUL)
      if idx < 0 then
        compiler_set_error comp
          ("Invalid variable: " ++ String.mk comp.current_token.text)
      else
        let (loc, comp) := get_or_create_variable comp idx
        let comp := emit comp (SML_READ * 100 + loc)
        let comp := compiler_advance_token comp
        if comp.current_token.type = TokenType.TOKEN_COMMA then
          compile_input_loop gas comp
        else comp

/-- `compile_input`. -/
def compile_input (gas : Nat) (comp : Compiler) : Compiler :=
  compile_input_loop gas (compiler_advance_token comp)

/-- The do-while loop of `compile_print`. -/
def compile_print_loop : Nat → Compiler → Compiler
  | 0, comp => comp
  | gas + 1, comp =>
    let comp :=
      if comp.current_token.type = TokenType.TOKEN_COMMA then
        compiler_advance_token comp
      else comp
    if comp.current_token.type = TokenType.TOKEN_STRING then
      let (str_loc, comp) := store_string comp comp.current_token.text
      let comp :=
        if 0 ≤ str_loc then emit comp (SML_WRITES * 100 + str_loc) else comp
      let comp := compiler_advance_token comp
      if comp.current_token.type = TokenType.TOKEN_COMMA then
        compile_print_loop gas comp
      else comp
    else if comp.current_token.type ≠ TokenType.TOKEN_NEWLINE ∧
        comp.current_token.type ≠ TokenType.TOKEN_EOF ∧
        comp.current_token.type ≠ TokenType.TOKEN_COMMA then
      let comp := compileExpr gas CExpr.expr comp
      if comp.has_error then comp
      else
        let (temp, comp) := alloc_data comp
        let comp := emit comp (SML_STORE * 100 + temp)
        let comp := emit comp (SML_WRITE * 100 + temp)
        if comp.current_token.type = TokenType.TOKEN_COMMA then
          compile_print_loop gas comp
        else comp
    else
      if comp.current_token.type = TokenType.TOKEN_COMMA then
        compile_print_loop gas comp
      else comp

/-- `compile_print`: empty print emits only NEWLINE, otherwise the item
loop followed by one NEWLINE. -/
def compile_print (gas : Nat) (comp : Compiler) : Compiler :=
  let comp := compiler_advance_token comp
  if comp.current_token.type = TokenType.TOKEN_NEWLINE ∨
      comp.current_token.type = TokenType.TOKEN_EOF then
    emit comp (SML_NEWLINE * 100 + 0)
  else
    let comp := compile_print_loop gas comp
    if comp.has_error then comp else emit comp (SML_NEWLINE * 100 + 0)

/-- The tail of `compile_let` after the target cell is known: require `=`,
compile the right-hand side, store. -/
def compile_let_assign (gas : Nat) (comp : Compiler) (loc : Int) : Compiler :=
  if comp.current_token.type ≠ TokenType.TOKEN_ASSIGN then
    compiler_set_error comp
      ("Expected " ++ SQ ++ "=" ++ SQ ++ " in let statement")
  else
    let comp := compiler_advance_token comp
    let comp := compileExpr gas CExpr.expr comp
    if comp.has_error then comp
    else emit comp (SML_STORE * 100 + loc)

/-- `compile_let`. -/
def compile_let (gas : Nat) (comp : Compiler) : Compiler :=
  let comp := compiler_advance_token comp
  if comp.current_token.type ≠ TokenType.TOKEN_IDENT then
    compiler_set_error comp ("Expected variable after " ++ SQ ++ "let" ++ SQ)
  else
    let idx := var_index (comp.current_token.text.headD NUL)
    if idx < 0 then
      compiler_set_error comp
        ("Invalid variable: " ++ String.mk comp.current_token.text)
    else
      let comp := compiler_advance_token comp
      if comp.current_token.type = TokenType.TOKEN_LPAREN then
        let comp := compiler_advance_token comp
        if comp.current_token.type ≠ TokenType.TOKEN_NUMBER then
          compiler_set_error comp "Array index must be a constant (SML limitation)"
        else
          let array_idx := double2int comp.current_token.num_value
          let comp := compiler_advance_token comp
          if comp.current_token.type ≠ TokenType.TOKEN_RPAREN then
            compiler_set_error comp
              ("Expected " ++ SQ ++ ")" ++ SQ ++ " after array index")
          else
            let comp := compiler_advance_token comp
            let comp :=
              match find_symbol comp SymbolType.SYMBOL_ARRAY idx with
              | some _ => comp
              | none =>
                let size := if 10 < array_idx + 1 then array_idx + 1 else 10
                (get_or_create_array comp idx size).2
            match find_symbol comp SymbolType.SYMBOL_ARRAY idx with
            | none => compiler_set_error comp "Failed to create array"
            | some arr =>
              if array_idx < 0 ∨ arr.size ≤ array_idx then
                compiler_set_error comp
                  ("Array index " ++ toString array_idx ++
                   " out of bounds (0-" ++ toString (arr.size - 1) ++ ")")
              else
                compile_let_assign gas comp (arr.location - array_idx)
      else
        let (loc, comp) := get_or_create_variable comp idx
        compile_let_assign gas comp loc

/-- `compile_goto`. -/
def compile_goto (comp : Compiler) : Compiler :=
  let comp := compiler_advance_token comp
  if comp.current_token.type ≠ TokenType.TOKEN_NUMBER then
    compiler_set_error comp
      ("Expected line number after " ++ SQ ++ "goto" ++ SQ)
  else
    let target_line := double2int comp.current_token.num_value
    let comp :=
      match find_symbol comp SymbolType.SYMBOL_LINE target_line with
      | some sym => emit comp (SML_BRANCH * 100 + sym.location)
      | none =>
        let comp := add_flag comp comp.instruction_counter target_line
        emit comp (SML_BRANCH * 100 + 0)
    compiler_advance_token comp

/-- `compile_if`. -/
def compile_if (gas : Nat) (comp : Compiler) : Compiler :=
  let comp := compiler_advance_token comp
  let comp := compileExpr gas CExpr.expr comp
  if comp.has_error then comp
  else
    let (temp_left, comp) := alloc_data comp
    let comp := emit comp (SML_STORE * 100 + temp_left)
    let op := comp.current_token.type
    if op ≠ TokenType.TOKEN_EQ ∧ op ≠ TokenType.TOKEN_NE ∧
        op ≠ TokenType.TOKEN_LT ∧ op ≠ TokenType.TOKEN_GT ∧
        op ≠ TokenType.TOKEN_LE ∧ op ≠ TokenType.TOKEN_GE then
      compiler_set_error comp "Expected comparison operator in if statement"
    else
      let comp := compiler_advance_token comp
      let comp := compileExpr gas CExpr.expr comp
      if comp.has_error then comp
      else
        let (temp_right, comp) := alloc_data comp
        let comp := emit comp (SML_STORE * 100 + temp_right)
        let comp := emit comp (SML_LOAD * 100 + temp_left)
        let comp := emit comp (SML_SUBTRACT * 100 + temp_right)
        if comp.current_token.type ≠ TokenType.TOKEN_GOTO then
          compiler_set_error comp
            ("Expected " ++ SQ ++ "goto" ++ SQ ++ " in if statement")
        else
          let comp := compiler_advance_token comp
          if comp.current_token.type ≠ TokenType.TOKEN_NUMBER then
            compiler_set_error comp
              ("Expected line number after " ++ SQ ++ "goto" ++ SQ)
          else
            let target_line := double2int comp.current_token.num_value
            let sym := find_symbol comp SymbolType.SYMBOL_LINE target_line
            let target_loc := match sym with | some s => s.location | none => 0
            let comp :=
              if op = TokenType.TOKEN_EQ then
                let comp :=
                  if sym.isNone then add_flag comp comp.instruction_counter target_line
                  else comp
                emit comp (SML_BRANCHZERO * 100 + target_loc)
              else if op = TokenType.TOKEN_LT then
                let comp :=
                  if sym.isNone then add_flag comp comp.instruction_counter target_line
                  else comp
                emit comp (SML_BRANCHNEG * 100 + target_loc)
              else if op = TokenType.TOKEN_GT then
                let comp := emit comp (SML_LOAD * 100 + temp_right)
                let comp := emit comp (SML_SUBTRACT * 100 + temp_left)
                let comp :=
                  if sym.isNone then add_flag comp comp.instruction_counter target_line
                  else comp
                emit comp (SML_BRANCHNEG * 100 + target_loc)
              else if op = TokenType.TOKEN_LE then
                let comp :=
                  if sym.isNone then
                    let comp := add_flag comp comp.instruction_counter target_line
                    add_flag comp (comp.instruction_counter + 1) target_line
                  else comp
                let comp := emit comp (SML_BRANCHNEG * 100 + target_loc)
                emit comp (SML_BRANCHZERO * 100 + target_loc)
              else if op = TokenType.TOKEN_GE then
                let comp :=
                  if sym.isNone then add_flag comp comp.instruction_counter target_line
                  else comp
                let comp := emit comp (SML_BRANCHZERO * 100 + target_loc)
                let comp := emit comp (SML_LOAD * 100 + temp_right)
                let comp := emit comp (SML_SUBTRACT * 100 + temp_left)
                let comp :=
                  if sym.isNone then add_flag comp comp.instruction_counter target_line
                  else comp
                emit comp (SML_BRANCHNEG * 100 + target_loc)
              else
                let comp :=
                  if sym.isNone then add_flag comp comp.instruction_counter target_line
                  else comp
                let comp := emit comp (SML_BRANCHNEG * 100 + target_loc)
                let comp := emit comp (SML_LOAD * 100 + temp_right)
                let comp := emit comp (SML_SUBTRACT * 100 + temp_left)
                let comp :=
                  if sym.isNone then add_flag comp comp.instruction_counter target_line
                  else comp
                emit comp (SML_BRANCHNEG * 100 + target_loc)
            compiler_advance_token comp

/-- The tail of `compile_for` after the step is resolved: push the loop
frame (bounded by `MAX_FOR_DEPTH`) recording the current instruction
counter as the loop-body start. -/
def compile_for_push (comp : Compiler) (loop_var : Char) (var_loc : Int)
    (end_loc : Int) (step_loc : Int) (step_is_negative : Bool) : Compiler :=
  if MAX_FOR_DEPTH ≤ comp.for_stack.length then
    compiler_set_error comp "For loop nested too deep"
  else
    { comp with
        for_stack := comp.for_stack ++
          [{ var := loop_var,
             var_location := var_loc,
             end_location := end_loc,
             step_location := step_loc,
             step_is_negative := step_is_negative,
             loop_start := comp.instruction_counter }] }

/-- `compile_for`. -/
def compile_for (gas : Nat) (comp : Compiler) : Compiler :=
  let comp := compiler_advance_token comp
  if comp.current_token.type ≠ TokenType.TOKEN_IDENT then
    compiler_set_error comp ("Expected variable after " ++ SQ ++ "for" ++ SQ)
  else
    let loop_var := comp.current_token.text.headD NUL
    let idx := var_index loop_var
    if idx < 0 then
      compiler_set_error comp "Invalid loop variable"
    else
      let (var_loc, comp) := get_or_create_variable comp idx
      let comp := compiler_advance_token comp
      if comp.current_token.type ≠ TokenType.TOKEN_ASSIGN then
        compiler_set_error comp
          ("Expected " ++ SQ ++ "=" ++ SQ ++ " in for statement")
      else
        let comp := compiler_advance_token comp
        let comp := compileExpr gas CExpr.expr comp
        if comp.has_error then comp
        else
          let comp := emit comp (SML_STORE * 100 + var_loc)
          if comp.current_token.type ≠ TokenType.TOKEN_TO then
            compiler_set_error comp
              ("Expected " ++ SQ ++ "to" ++ SQ ++ " in for statement")
          else
            let comp := compiler_advance_token comp
            let comp := compileExpr gas CExpr.expr comp
            if comp.has_error then comp
            else
              let (end_loc, comp) := alloc_data comp
              let comp := emit comp (SML_STORE * 100 + end_loc)
              if comp.current_token.type = TokenType.TOKEN_STEP then
                let comp := compiler_advance_token comp
                if comp.current_token.type = TokenType.TOKEN_MINUS then
                  let comp := compiler_advance_token comp
                  if comp.current_token.type = TokenType.TOKEN_NUMBER then
                    let step_val := -(double2int comp.current_token.num_value)
                    let (step_loc, comp) := get_or_create_constant comp step_val
                    let comp := compiler_advance_token comp
                    compile_for_push comp loop_var var_loc end_loc step_loc true
                  else
                    compiler_set_error comp "Step must be a constant number"
                else if comp.current_token.type = TokenType.TOKEN_NUMBER then
                  let step_val := double2int comp.current_token.num_value
                  let (step_loc, comp) := get_or_create_constant comp step_val
                  let comp := compiler_advance_token comp
                  compile_for_push comp loop_var var_loc end_loc step_loc
                    (step_val < 0)
                else
                  compiler_set_error comp "Step must be a constant number"
              else
                let (step_loc, comp) := get_or_create_constant comp 1
                compile_for_push comp loop_var var_loc end_loc step_loc false

/-- `compile_next`. -/
def compile_next (comp : Compiler) : Compiler :=
  let comp := compiler_advance_token comp
  if comp.current_token.type ≠ TokenType.TOKEN_IDENT then
    compiler_set_error comp ("Expected variable after " ++ SQ ++ "next" ++ SQ)
  else
    let loop_var := comp.current_token.text.headD NUL
    let comp := compiler_advance_token comp
    if comp.for_stack.length = 0 then
      compiler_set_error comp "next without for"
    else
      let state := comp.for_stack.getLastD
        { var := NUL, var_location := 0, end_location := 0,
          step_location := 0, loop_start := 0, step_is_negative := false }
      if state.var ≠ loop_var then
        compiler_set_error comp
          ("next variable mismatch: expected " ++ SQ ++ String.mk [state.var] ++
           SQ ++ ", got " ++ SQ ++ String.mk [loop_var] ++ SQ)
      else
        let comp := emit comp (SML_LOAD * 100 + state.var_location)
        let comp := emit comp (SML_ADD * 100 + state.step_location)
        let comp := emit comp (SML_STORE * 100 + state.var_location)
        let comp :=
          if state.step_is_negative then
            let comp := emit comp (SML_LOAD * 100 + state.end_location)
            emit comp (SML_SUBTRACT * 100 + state.var_location)
          else
            let comp := emit comp (SML_LOAD * 100 + state.var_location)
            emit comp (SML_SUBTRACT * 100 + state.end_location)
        let comp := emit comp (SML_BRANCHNEG * 100 + state.loop_start)
        let comp := emit comp (SML_BRANCHZERO * 100 + state.loop_start)
        { comp with for_stack := comp.for_stack.dropLast }

/-- `compile_end`: emit HALT. -/
def compile_end (comp : Compiler) : Compiler :=
  emit comp (SML_HALT * 100 + 0)

/-- `compile_line`: reset the lexer to the line start, record the line
number symbol unconditionally, then dispatch on the statement keyword. -/
def compile_line (gas : Nat) (comp : Compiler) (line_start : Nat) : Compiler :=
  let comp := { comp with lexer := lexer_reset_line comp.lexer line_start }
  let comp := compiler_advance_token comp
  if comp.current_token.type ≠ TokenType.TOKEN_NUMBER then
    comp
  else
    let comp := { comp with
                   current_line_number := double2int comp.current_token.num_value }
    let comp := (add_symbol comp SymbolType.SYMBOL_LINE comp.current_line_number
      comp.instruction_counter).2
    let comp := compiler_advance_token comp
    if comp.current_token.type = TokenType.TOKEN_REM then compile_rem comp
    else if comp.current_token.type = TokenType.TOKEN_INPUT then compile_input gas comp
    else if comp.current_token.type = TokenType.TOKEN_PRINT then compile_print gas comp
    else if comp.current_token.type = TokenType.TOKEN_LET then compile_let gas comp
    else if comp.current_token.type = TokenType.TOKEN_GOTO then compile_goto comp
    else if comp.current_token.type = TokenType.TOKEN_IF then compile_if gas comp
    else if comp.current_token.type = TokenType.TOKEN_FOR then compile_for gas comp
    else if comp.current_token.type = TokenType.TOKEN_NEXT then compile_next comp
    else if comp.current_token.type = TokenType.TOKEN_END then compile_end comp
    else if comp.current_token.type = TokenType.TOKEN_NEWLINE ∨
        comp.current_token.type = TokenType.TOKEN_EOF then comp
    else
      compiler_set_error comp
        ("Line " ++ toString comp.current_line_number ++
         ": Unknown statement: " ++ String.mk comp.current_token.text)

/-- `resolve_flags` (pass two), as recursion over the flag list: look every
recorded target line up, patch the emitted word keeping its opcode
(`instruction / 100`), or fail on the first undefined line number. -/
def resolve_flags_aux : List CFlag → Compiler → Compiler
  | [], comp => comp
  | f :: rest, comp =>
    match find_symbol comp SymbolType.SYMBOL_LINE f.target_line_number with
    | none =>
      compiler_set_error comp
        ("Undefined line number: " ++ toString f.target_line_number)
    | some sym =>
      let instruction := memGet comp.memory f.instruction_location
      let opcode := Int.tdiv instruction 100
      resolve_flags_aux rest
        { comp with
            memory := memSet comp.memory f.instruction_location
              (opcode * 100 + sym.location) }

/-- `resolve_flags`. -/
def resolve_flags (comp : Compiler) : Compiler :=
  resolve_flags_aux comp.flags comp

/-- `compiler_init`: zero the struct, then start the data region at 99. -/
def compiler_init : Compiler :=
  { lexer := lexer_init []
    current_token :=
      { type := TokenType.TOKEN_EOF, text := [], num_value := CDouble.ofInt 0,
        line := 0, column := 0 }
    symbols := []
    flags := []
    for_stack := []
    strings := []
    memory := List.replicate 100 0
    instruction_counter := 0
    data_counter := 99
    current_line_number := 0
    error_message := ""
    has_error := false }

/-- The leading space/tab skip of the pass-one line loop. -/
def skip_blanks (src : List Char) : Nat → Nat → Nat
  | 0, i => i
  | gas + 1, i =>
    if src.getD i NUL = ' ' ∨ src.getD i NUL = '\t' then
      skip_blanks src gas (i + 1)
    else i

/-- The skip-to-end-of-line loop of the pass-one line loop. -/
def skip_to_newline (src : List Char) : Nat → Nat → Nat
  | 0, i => i
  | gas + 1, i =>
    if src.getD i NUL ≠ NUL ∧ src.getD i NUL ≠ '\n' then
      skip_to_newline src gas (i + 1)
    else i

/-- The pass-one `while (*line_start)` loop of `compiler_compile`:
compile each non-blank line, aborting on the first error. -/
def compiler_compile_loop : Nat → Compiler → Nat → Compiler
  | 0, comp, _ => comp
  | gas + 1, comp, line_start =>
    let src := comp.lexer.source
    if src.getD line_start NUL = NUL then comp
    else
      let line_start := skip_blanks src (src.length + 1) line_start
      let comp :=
        if src.getD line_start NUL ≠ NUL ∧ src.getD line_start NUL ≠ '\n' then
          compile_line (16 * (src.length + 2)) comp line_start
        else comp
      if comp.has_error then comp
      else
        let line_start := skip_to_newline src (src.length + 1) line_start
        let line_start :=
          if src.getD line_start NUL = '\n' then line_start + 1 else line_start
        compiler_compile_loop gas comp line_start

/-- `compiler_compile`: pass one over the lines (stopping early on error,
in which case pass two never runs), then `resolve_flags`; the Bool is the
C return value. -/
def compiler_compile (comp : Compiler) (source : List Char) : Bool × Compiler :=
  let comp := { comp with lexer := lexer_init source }
  let comp := compiler_compile_loop (source.length + 2) comp 0
  if comp.has_error then (false, comp)
  else
    let comp := resolve_flags comp
    (comp.has_error = false, comp)

/-! ## Interpreter (`src/interpreter.c`, `include/interpreter.h`)

C `double` values are exact rationals here; `stdin` is a list of rationals
consumed by `input`; the text written by `print` is not modelled (no claim
refers to interpreter output, and `exec_print` still performs every parse
and error check of the C code). -/

/-- `MAX_VARIABLES` from interpreter.h. -/
def MAX_VARIABLES : Nat := 26

/-- `MAX_ARRAY_SIZE` from interpreter.h. -/
def MAX_ARRAY_SIZE : Int := 100

/-- `MAX_LINES` from interpreter.h. -/
def MAX_LINES : Nat := 1000

/-- `Variable` from interpreter.h. -/
structure IVariable where
  value : CDouble
  initialized : Bool
deriving DecidableEq, Repr

/-- `Array` from interpreter.h (named `InterpArray`: `Array` is Lean's). -/
structure InterpArray where
  values : List CDouble
  size : Int
  initialized : Bool
deriving DecidableEq, Repr

/-- `ForState` from interpreter.h; the C `const char *loop_start` pointer
into the source becomes a byte offset. -/
structure ForState where
  var : Char
  end_value : CDouble
  step : CDouble
  next_line_index : Int
  loop_start : Nat
deriving DecidableEq, Repr

/-- `LineInfo` from interpreter.h; `start` is a byte offset. -/
structure LineInfo where
  line_number : Int
  start : Nat
deriving DecidableEq, Repr

/-- The `Interpreter` struct from interpreter.h (fixed arrays with
counters become lists, the source lives in `lexer.source`;
the C field `variables` is named `vars`: `variables` is reserved in
Lean 4). -/
structure Interpreter where
  lexer : Lexer
  current_token : Token
  lines : List LineInfo
  vars : List IVariable
  arrays : List InterpArray
  for_stack : List ForState
  current_line_index : Int
  running : Bool
  error_message : String
  has_error : Bool
deriving DecidableEq, Repr

/-- Zero-valued `LineInfo` (reading `lines[i]` out of bounds never happens
on the runs the claims exercise). -/
def defaultLineInfo : LineInfo := { line_number := 0, start := 0 }

/-- Zero-valued scalar slot. -/
def defaultIVariable : IVariable := { value := CDouble.ofInt 0, initialized := false }

/-- Zero-valued array slot. -/
def defaultInterpArray : InterpArray :=
  { values := List.replicate 100 (CDouble.ofInt 0), size := 0, initialized := false }

/-- `set_error` from interpreter.c: record the message, raise the error
flag and stop the run. -/
def interp_set_error (it : Interpreter) (msg : String) : Interpreter :=
  { it with error_message := msg, has_error := true, running := false }

/-- `advance_token` from interpreter.c. -/
def interp_advance_token (it : Interpreter) : Interpreter :=
  let r := lexer_next_token it.lexer
  { it with current_token := r.1, lexer := r.2 }

/-- `expect` from interpreter.c: check the current token type, setting the
formatted mismatch error otherwise. -/
def expect (it : Interpreter) (type : TokenType) : Bool × Interpreter :=
  if it.current_token.type ≠ type then
    (false, interp_set_error it
      ("Line " ++
       toString ((it.lines.getD it.current_line_index.toNat defaultLineInfo).line_number) ++
       ": Expected " ++ token_type_name type ++ ", got " ++
       token_type_name it.current_token.type))
  else (true, it)

/-- `find_line_index`: first index with the given line number, else -1. -/
def find_line_index (it : Interpreter) (line_number : Int) : Int :=
  match it.lines.findIdx? (fun li => li.line_number = line_number) with
  | some i => (i : Int)
  | none => -1

/-- Selector for the mutually recursive expression-parsing functions of
interpreter.c (`parse_expression` / `parse_term` / `parse_power` /
`parse_unary` / `parse_primary`); the `Loop` tags are the `while` loops
inside `parse_expression` and `parse_term`, carrying the C local
`result`. -/
inductive PCall where
  | expr
  | exprLoop (acc : CDouble)
  | term
  | termLoop (acc : CDouble)
  | power
  | unary
  | primary
deriving DecidableEq, Repr

/-- The recursive-descent expression evaluator of interpreter.c
(lines 213-449) as one gas-indexed recursion over the `PCall` selector.
Every branch is a direct transcription of the corresponding C function. -/
def interpParse : Nat → PCall → Interpreter → CDouble × Interpreter
  | 0, _, it => (CDouble.ofInt 0, it)
  | gas + 1, PCall.expr, it =>
    let (v, it) := interpParse gas PCall.term it
    interpParse gas (PCall.exprLoop v) it
  | gas + 1, PCall.exprLoop acc, it =>
    if it.has_error = false ∧
        (it.current_token.type = TokenType.TOKEN_PLUS ∨
         it.current_token.type = TokenType.TOKEN_MINUS) then
      let op := it.current_token.type
      let it := interp_advance_token it
      let (right, it) := interpParse gas PCall.term it
      let acc := if op = TokenType.TOKEN_PLUS then dAdd acc right else dSub acc right
      interpParse gas (PCall.exprLoop acc) it
    else (acc, it)
  | gas + 1, PCall.term, it =>
    let (v, it) := interpParse gas PCall.power it
    interpParse gas (PCall.termLoop v) it
  | gas + 1, PCall.termLoop acc, it =>
    if it.has_error = false ∧
        (it.current_token.type = TokenType.TOKEN_STAR ∨
         it.current_token.type = TokenType.TOKEN_SLASH ∨
         it.current_token.type = TokenType.TOKEN_PERCENT) then
      let op := it.current_token.type
      let it := interp_advance_token it
      let (right, it) := interpParse gas PCall.power it
      if op = TokenType.TOKEN_STAR then
        interpParse gas (PCall.termLoop (dMul acc right)) it
      else if op = TokenType.TOKEN_SLASH then
        if dIsZero right then (CDouble.ofInt 0, interp_set_error it "Division by zero")
        else interpParse gas (PCall.termLoop (dDiv acc right)) it
      else
        if dIsZero right then (CDouble.ofInt 0, interp_set_error it "Modulo by zero")
        else interpParse gas (PCall.termLoop (dFmod acc right)) it
    else (acc, it)
  | gas + 1, PCall.power, it =>
    let (v, it) := interpParse gas PCall.unary it
    if it.has_error = false ∧ it.current_token.type = TokenType.TOKEN_CARET then
      let it := interp_advance_token it
      let (right, it) := interpParse gas PCall.power it
      (dPow v right, it)
    else (v, it)
  | gas + 1, PCall.unary, it =>
    if it.current_token.type = TokenType.TOKEN_MINUS then
      let it := interp_advance_token it
      let (v, it) := interpParse gas PCall.unary it
      (dNeg v, it)
    else if it.current_token.type = TokenType.TOKEN_PLUS then
      let it := interp_advance_token it
      interpParse gas PCall.unary it
    else
      interpParse gas PCall.primary it
  | gas + 1, PCall.primary, it =>
    let token := it.current_token
    if token.type = TokenType.TOKEN_NUMBER ∨ token.type = TokenType.TOKEN_FLOAT then
      (token.num_value, interp_advance_token it)
    else if token.type = TokenType.TOKEN_IDENT then
      let idx := var_index (token.text.headD NUL)
      if idx < 0 then
        (CDouble.ofInt 0,
         interp_set_error it ("Invalid variable: " ++ String.mk token.text))
      else
        let it := interp_advance_token it
        if it.current_token.type = TokenType.TOKEN_LPAREN then
          let it := interp_advance_token it
          let (e, it) := interpParse gas PCall.expr it
          let array_idx := double2int e
          let (ok, it) := expect it TokenType.TOKEN_RPAREN
          if ok = false then (CDouble.ofInt 0, it)
          else
            let it := interp_advance_token it
            if array_idx < 0 ∨ MAX_ARRAY_SIZE ≤ array_idx then
              (CDouble.ofInt 0, interp_set_error it
                ("Array index out of bounds: " ++ toString array_idx))
            else
              ((it.arrays.getD idx.toNat defaultInterpArray).values.getD
                 array_idx.toNat (CDouble.ofInt 0), it)
        else
          let v := it.vars.getD idx.toNat defaultIVariable
          if v.initialized = false then
            (CDouble.ofInt 0, interp_set_error it
              ("Uninitialized variable: " ++
               String.mk [Char.ofNat (97 + idx.toNat)]))
          else
            (v.value, it)
    else if token.type = TokenType.TOKEN_LPAREN then
      let it := interp_advance_token it
      let (v, it) := interpParse gas PCall.expr it
      let (ok, it) := expect it TokenType.TOKEN_RPAREN
      if ok = false then (CDouble.ofInt 0, it)
      else (v, interp_advance_token it)
    else
      (CDouble.ofInt 0, interp_set_error it
        ("Unexpected token in expression: " ++ String.mk token.text))

/-- `parse_condition` from interpreter.c. -/
def parse_condition (gas : Nat) (it : Interpreter) : Bool × Interpreter :=
  let (left, it) := interpParse gas PCall.expr it
  if it.has_error then (false, it)
  else
    let op := it.current_token.type
    if op ≠ TokenType.TOKEN_EQ ∧ op ≠ TokenType.TOKEN_NE ∧
        op ≠ TokenType.TOKEN_LT ∧ op ≠ TokenType.TOKEN_GT ∧
        op ≠ TokenType.TOKEN_LE ∧ op ≠ TokenType.TOKEN_GE then
      (false, interp_set_error it "Expected comparison operator")
    else
      let it := interp_advance_token it
      let (right, it) := interpParse gas PCall.expr it
      if it.has_error then (false, it)
      else
        if op = TokenType.TOKEN_EQ then (dEq left right, it)
        else if op = TokenType.TOKEN_NE then (!dEq left right, it)
        else if op = TokenType.TOKEN_LT then (dLt left right, it)
        else if op = TokenType.TOKEN_GT then (dLt right left, it)
        else if op = TokenType.TOKEN_LE then (dLe left right, it)
        else (dLe right left, it)

/-- `exec_rem`: comments do nothing. -/
def exec_rem (it : Interpreter) : Interpreter := it

/-- Store one `input` value (the tail of the `exec_input` loop body):
the C code stores to the array only when `array_idx >= 0` — a negative
parsed index falls through to the scalar branch. -/
def exec_input_store (it : Interpreter) (value : CDouble) (idx array_idx : Int) :
    Interpreter :=
  if 0 ≤ array_idx then
    if MAX_ARRAY_SIZE ≤ array_idx then
      interp_set_error it "Array index out of bounds"
    else
      let arr := it.arrays.getD idx.toNat defaultInterpArray
      let arr := { arr with
                    values := arr.values.set array_idx.toNat value,
                    initialized := true }
      { it with arrays := it.arrays.set idx.toNat arr }
  else
    { it with
       vars := it.vars.set idx.toNat { value := value, initialized := true } }

/-- The do-while loop of `exec_input`; `stdin` is the stream `scanf`
consumes one value from per target.  Only a failed `expect` returns early;
the bounds check runs after the value is consumed, exactly as in C. -/
def exec_input_loop : Nat → Interpreter → List CDouble → Interpreter × List CDouble
  | 0, it, stdin => (it, stdin)
  | gas + 1, it, stdin =>
    let it :=
      if it.current_token.type = TokenType.TOKEN_COMMA then
        interp_advance_token it
      else it
    if it.current_token.type ≠ TokenType.TOKEN_IDENT then
      (interp_set_error it
        ("Expected variable name after " ++ SQ ++ "input" ++ SQ), stdin)
    else
      let idx := var_index (it.current_token.text.headD NUL)
      if idx < 0 then
        (interp_set_error it
          ("Invalid variable: " ++ String.mk it.current_token.text), stdin)
      else
        let it := interp_advance_token it
        if it.current_token.type = TokenType.TOKEN_LPAREN then
          let it := interp_advance_token it
          let (e, it) := interpParse gas PCall.expr it
          let (ok, it) := expect it TokenType.TOKEN_RPAREN
          if ok = false then (it, stdin)
          else
            let it := interp_advance_token it
            match stdin with
            | [] => (interp_set_error it "Invalid input", stdin)
            | value :: stdin =>
              let it := exec_input_store it value idx (double2int e)
              if it.has_error then (it, stdin)
              else if it.current_token.type = TokenType.TOKEN_COMMA then
                exec_input_loop gas it stdin
              else (it, stdin)
        else
          match stdin with
          | [] => (interp_set_error it "Invalid input", stdin)
          | value :: stdin =>
            let it := exec_input_store it value idx (-1)
            if it.current_token.type = TokenType.TOKEN_COMMA then
              exec_input_loop gas it stdin
            else (it, stdin)

/-- `exec_input`. -/
def exec_input (gas : Nat) (it : Interpreter) (stdin : List CDouble) :
    Interpreter × List CDouble :=
  exec_input_loop gas (interp_advance_token it) stdin

/-- The do-while loop of `exec_print` (the `printf` side effects and the
C `first`-item flag, which only controls spacing in the unmodelled output,
are dropped; every parse and error path is kept). -/
def exec_print_loop : Nat → Interpreter → Interpreter
  | 0, it => it
  | gas + 1, it =>
    let it :=
      if it.current_token.type = TokenType.TOKEN_COMMA then
        interp_advance_token it
      else it
    if it.current_token.type = TokenType.TOKEN_STRING then
      let it := interp_advance_token it
      if it.current_token.type = TokenType.TOKEN_COMMA then
        exec_print_loop gas it
      else it
    else if it.current_token.type = TokenType.TOKEN_NEWLINE ∨
        it.current_token.type = TokenType.TOKEN_EOF then
      it
    else
      let (_, it) := interpParse gas PCall.expr it
      if it.has_error then it
      else if it.current_token.type = TokenType.TOKEN_COMMA then
        exec_print_loop gas it
      else it

/-- `exec_print`. -/
def exec_print (gas : Nat) (it : Interpreter) : Interpreter :=
  exec_print_loop gas (interp_advance_token it)

/-- The tail of `exec_let` after the optional index is parsed: require
`=`, evaluate, store (the C code stores to the array only when
`array_idx >= 0`; a negative parsed index falls through to the scalar
branch after the bounds error check). -/
def exec_let_assign (gas : Nat) (it : Interpreter) (idx array_idx : Int) :
    Interpreter :=
  let (ok, it) := expect it TokenType.TOKEN_ASSIGN
  if ok = false then it
  else
    let it := interp_advance_token it
    let (value, it) := interpParse gas PCall.expr it
    if it.has_error then it
    else
      if 0 ≤ array_idx then
        if array_idx < 0 ∨ MAX_ARRAY_SIZE ≤ array_idx then
          interp_set_error it
            ("Array index out of bounds: " ++ toString array_idx)
        else
          let arr := it.arrays.getD idx.toNat defaultInterpArray
          let arr := { arr with
                        values := arr.values.set array_idx.toNat value,
                        initialized := true }
          { it with arrays := it.arrays.set idx.toNat arr }
      else
        { it with
           vars := it.vars.set idx.toNat
             { value := value, initialized := true } }

/-- `exec_let`. -/
def exec_let (gas : Nat) (it : Interpreter) : Interpreter :=
  let it := interp_advance_token it
  if it.current_token.type ≠ TokenType.TOKEN_IDENT then
    interp_set_error it
      ("Expected variable name after " ++ SQ ++ "let" ++ SQ)
  else
    let idx := var_index (it.current_token.text.headD NUL)
    if idx < 0 then
      interp_set_error it
        ("Invalid variable: " ++ String.mk it.current_token.text)
    else
      let it := interp_advance_token it
      if it.current_token.type = TokenType.TOKEN_LPAREN then
        let it := interp_advance_token it
        let (e, it) := interpParse gas PCall.expr it
        let (ok, it) := expect it TokenType.TOKEN_RPAREN
        if ok = false then it
        else
          let it := interp_advance_token it
          exec_let_assign gas it idx (double2int e)
      else
        exec_let_assign gas it idx (-1)

/-- `exec_goto`: jump to the target line (minus one: the run loop adds
one). -/
def exec_goto (it : Interpreter) : Interpreter :=
  let it := interp_advance_token it
  if it.current_token.type ≠ TokenType.TOKEN_NUMBER then
    interp_set_error it
      ("Expected line number after " ++ SQ ++ "goto" ++ SQ)
  else
    let target_line := double2int it.current_token.num_value
    let target_index := find_line_index it target_line
    if target_index < 0 then
      interp_set_error it ("Line " ++ toString target_line ++ " not found")
    else
      { it with current_line_index := target_index - 1 }

/-- `exec_if`. -/
def exec_if (gas : Nat) (it : Interpreter) : Interpreter :=
  let it := interp_advance_token it
  let (condition, it) := parse_condition gas it
  if it.has_error then it
  else if it.current_token.type ≠ TokenType.TOKEN_GOTO then
    interp_set_error it
      ("Expected " ++ SQ ++ "goto" ++ SQ ++ " in if statement")
  else
    let it := interp_advance_token it
    if it.current_token.type ≠ TokenType.TOKEN_NUMBER then
      interp_set_error it
        ("Expected line number after " ++ SQ ++ "goto" ++ SQ)
    else if condition then
      let target_line := double2int it.current_token.num_value
      let target_index := find_line_index it target_line
      if target_index < 0 then
        interp_set_error it ("Line " ++ toString target_line ++ " not found")
      else
        { it with current_line_index := target_index - 1 }
    else it

/-- The skip-the-loop-body scan of `exec_for` (interpreter.c lines
896-914): re-lex each following line, matching nested FOR/NEXT, stopping
at the NEXT that closes the loop.  The loop clobbers `lexer` and
`current_token` exactly as the C code does. -/
def exec_for_scan : Nat → Int → Int → Interpreter → Interpreter
  | 0, _, _, it => it
  | gas + 1, i, depth, it =>
    if i < (it.lines.length : Int) ∧ 0 < depth then
      let it := { it with
                   lexer := lexer_reset_line it.lexer
                     ((it.lines.getD i.toNat defaultLineInfo).start) }
      let it := interp_advance_token it
      let it :=
        if it.current_token.type = TokenType.TOKEN_NUMBER then
          interp_advance_token it
        else it
      if it.current_token.type = TokenType.TOKEN_FOR then
        exec_for_scan gas (i + 1) (depth + 1) it
      else if it.current_token.type = TokenType.TOKEN_NEXT then
        if depth - 1 = 0 then { it with current_line_index := i }
        else exec_for_scan gas (i + 1) (depth - 1) it
      else
        exec_for_scan gas (i + 1) depth it
    else it

/-- The second half of `exec_for` (interpreter.c lines 869-916), after
`var = start TO end [STEP step]` is parsed: assign the start value, then
either push a loop frame or skip the body. -/
def exec_for_core (it : Interpreter) (loop_var : Char) (idx : Int)
    (start_value end_value step : CDouble) : Interpreter :=
  let it := { it with
               vars := it.vars.set idx.toNat
                 { value := start_value, initialized := true } }
  let should_loop :=
    if dLt (CDouble.ofInt 0) step then dLe start_value end_value
    else dLe end_value start_value
  if should_loop then
    if MAX_FOR_DEPTH ≤ it.for_stack.length then
      interp_set_error it "For loop nested too deep"
    else
      { it with
          for_stack := it.for_stack ++
            [{ var := loop_var,
               end_value := end_value,
               step := step,
               loop_start :=
                 (it.lines.getD (it.current_line_index + 1).toNat
                   defaultLineInfo).start,
               next_line_index := -1 }] }
  else
    exec_for_scan (it.lines.length + 1) (it.current_line_index + 1) 1 it

/-- `exec_for`: parse `var = start TO end [STEP step]`, then
`exec_for_core`. -/
def exec_for (gas : Nat) (it : Interpreter) : Interpreter :=
  let it := interp_advance_token it
  if it.current_token.type ≠ TokenType.TOKEN_IDENT then
    interp_set_error it ("Expected variable after " ++ SQ ++ "for" ++ SQ)
  else
    let loop_var := it.current_token.text.headD NUL
    let idx := var_index loop_var
    if idx < 0 then
      interp_set_error it "Invalid loop variable"
    else
      let it := interp_advance_token it
      let (ok, it) := expect it TokenType.TOKEN_ASSIGN
      if ok = false then it
      else
        let it := interp_advance_token it
        let (start_value, it) := interpParse gas PCall.expr it
        if it.has_error then it
        else if it.current_token.type ≠ TokenType.TOKEN_TO then
          interp_set_error it
            ("Expected " ++ SQ ++ "to" ++ SQ ++ " in for statement")
        else
          let it := interp_advance_token it
          let (end_value, it) := interpParse gas PCall.expr it
          if it.has_error then it
          else
            if it.current_token.type = TokenType.TOKEN_STEP then
              let it := interp_advance_token it
              let (step, it) := interpParse gas PCall.expr it
              if it.has_error then it
              else exec_for_core it loop_var idx start_value end_value step
            else
              exec_for_core it loop_var idx start_value end_value (CDouble.ofInt 1)

/-- `exec_next`. -/
def exec_next (it : Interpreter) : Interpreter :=
  let it := interp_advance_token it
  if it.current_token.type ≠ TokenType.TOKEN_IDENT then
    interp_set_error it ("Expected variable after " ++ SQ ++ "next" ++ SQ)
  else
    let loop_var := it.current_token.text.headD NUL
    let idx := var_index loop_var
    if it.for_stack.length = 0 then
      interp_set_error it "next without for"
    else
      let state := it.for_stack.getLastD
        { var := NUL, end_value := CDouble.ofInt 0, step := CDouble.ofInt 0,
          next_line_index := 0, loop_start := 0 }
      if state.var ≠ loop_var then
        interp_set_error it "next variable mismatch"
      else
        let v := it.vars.getD idx.toNat defaultIVariable
        let v := { v with value := dAdd v.value state.step }
        let it := { it with vars := it.vars.set idx.toNat v }
        let current := v.value
        let should_continue :=
          if dLt (CDouble.ofInt 0) state.step then dLe current state.end_value
          else dLe state.end_value current
        if should_continue then
          match it.lines.findIdx? (fun li => li.start = state.loop_start) with
          | some i => { it with current_line_index := (i : Int) - 1 }
          | none => it
        else
          { it with for_stack := it.for_stack.dropLast }

/-- `exec_end`: stop running. -/
def exec_end (it : Interpreter) : Interpreter :=
  { it with running := false }

/-- `execute_line`: reset the lexer to the current indexed line, skip the
line number, dispatch on the statement keyword. -/
def execute_line (gas : Nat) (it : Interpreter) (stdin : List CDouble) :
    Interpreter × List CDouble :=
  let line := it.lines.getD it.current_line_index.toNat defaultLineInfo
  let it := { it with lexer := lexer_reset_line it.lexer line.start }
  let it := interp_advance_token it
  let it :=
    if it.current_token.type = TokenType.TOKEN_NUMBER then
      interp_advance_token it
    else it
  if it.current_token.type = TokenType.TOKEN_REM then (exec_rem it, stdin)
  else if it.current_token.type = TokenType.TOKEN_INPUT then
    exec_input gas it stdin
  else if it.current_token.type = TokenType.TOKEN_PRINT then
    (exec_print gas it, stdin)
  else if it.current_token.type = TokenType.TOKEN_LET then
    (exec_let gas it, stdin)
  else if it.current_token.type = TokenType.TOKEN_GOTO then
    (exec_goto it, stdin)
  else if it.current_token.type = TokenType.TOKEN_IF then
    (exec_if gas it, stdin)
  else if it.current_token.type = TokenType.TOKEN_FOR then
    (exec_for gas it, stdin)
  else if it.current_token.type = TokenType.TOKEN_NEXT then
    (exec_next it, stdin)
  else if it.current_token.type = TokenType.TOKEN_END then
    (exec_end it, stdin)
  else if it.current_token.type = TokenType.TOKEN_NEWLINE ∨
      it.current_token.type = TokenType.TOKEN_EOF then
    (it, stdin)
  else
    (interp_set_error it
      ("Unknown statement: " ++ String.mk it.current_token.text), stdin)

/-- `interpreter_init`: zero every field. -/
def interpreter_init : Interpreter :=
  { lexer := lexer_init []
    current_token :=
      { type := TokenType.TOKEN_EOF, text := [], num_value := CDouble.ofInt 0,
        line := 0, column := 0 }
    lines := []
    vars := List.replicate 26 defaultIVariable
    arrays := List.replicate 26 defaultInterpArray
    for_stack := []
    current_line_index := 0
    running := false
    error_message := ""
    has_error := false }

/-- The line-indexing loop of `interpreter_load`. -/
def interpreter_load_loop : Nat → Interpreter → Nat → Interpreter
  | 0, it, _ => it
  | gas + 1, it, line_start =>
    let src := it.lexer.source
    if src.getD line_start NUL = NUL then it
    else
      let line_start := skip_blanks src (src.length + 1) line_start
      if src.getD line_start NUL = NUL ∨ src.getD line_start NUL = '\n' then
        let line_start :=
          if src.getD line_start NUL = '\n' then line_start + 1 else line_start
        interpreter_load_loop gas it line_start
      else
        let it := { it with lexer := lexer_reset_line it.lexer line_start }
        let r := lexer_next_token it.lexer
        let it := { it with lexer := r.2 }
        let it :=
          if r.1.type = TokenType.TOKEN_NUMBER then
            if MAX_LINES ≤ it.lines.length then
              interp_set_error it "Too many lines"
            else
              { it with
                  lines := it.lines ++
                    [{ line_number := double2int r.1.num_value,
                       start := line_start }] }
          else it
        if it.has_error then it
        else
          let line_start := skip_to_newline src (src.length + 1) line_start
          let line_start :=
            if src.getD line_start NUL = '\n' then line_start + 1 else line_start
          interpreter_load_loop gas it line_start

/-- `interpreter_load`: copy the source into the lexer and build the line
index. -/
def interpreter_load (it : Interpreter) (source : List Char) : Interpreter :=
  let it := { it with lexer := lexer_init source, lines := [] }
  interpreter_load_loop (source.length + 2) it 0

/-- The main loop of `interpreter_run`. -/
def interpreter_run_loop : Nat → Interpreter → List CDouble →
    Bool × Interpreter × List CDouble
  | 0, it, stdin => (true, it, stdin)
  | gas + 1, it, stdin =>
    if it.running ∧ it.current_line_index < (it.lines.length : Int) then
      let (it, stdin) := execute_line (16 * (it.lexer.source.length + 2)) it stdin
      if it.has_error then (false, it, stdin)
      else
        interpreter_run_loop gas
          { it with current_line_index := it.current_line_index + 1 } stdin
    else (true, it, stdin)

/-- `interpreter_run`: run from the first indexed line; the gas bounds the
number of executed lines (the C interpreter itself can loop forever — the
spec documents the absence of a runaway guard — so a caller-chosen bound
is inherent to any terminating model). -/
def interpreter_run (gas : Nat) (it : Interpreter) (stdin : List CDouble) :
    Bool × Interpreter × List CDouble :=
  let it := { it with running := true, current_line_index := 0, has_error := false }
  interpreter_run_loop gas it stdin

/-! ## Concrete states used by witnesses and counterexamples -/

/-- A zeroed 100-cell memory image. -/
def zeroMemory : List Int := List.replicate 100 0

/-- Memory image with a single word -7 at address 0. -/
def negWordMemory : List Int := zeroMemory.set 0 (-7)

/-- The negative-constant scenario image: `memory[0] = 2050` (LOAD 50),
`memory[1] = 4300` (HALT), `memory[50] = -7`. -/
def c5_memory : List Int := ((zeroMemory.set 0 2050).set 1 4300).set 50 (-7)

/-- A VM about to fetch the word -7 at PC 0. -/
def cvm3 : SML_VM := sml_vm_load sml_vm_init negWordMemory

/-- A compiler state with 98 instruction cells used and no data allocated
(as after emitting 98 instructions from a fresh compiler). -/
def c1_emit_state : Compiler :=
  { compiler_init with instruction_counter := 98 }

/-- A compiler state whose free region is the single boundary cell 5
(instruction cells 0-4 used, data cells 6-99 used). -/
def c1_string_state : Compiler :=
  { compiler_init with instruction_counter := 5, data_counter := 5 }

/-- Source with a duplicated line number, accepted by the compiler. -/
def c6_source : List Char := "10 end\n10 end\n".toList

/-- Source reading an array cell that was never assigned. -/
def c2_source : List Char := "10 let x = a(0)\n20 end\n".toList

/-- Source whose FOR has step 0 and start above end. -/
def c7_source : List Char := "10 for i = 5 to 3 step 0\n20 next i\n30 end\n".toList

/-- The C7 interpreter, loaded and started (as `interpreter_run` does)
with the FOR line current. -/
def c7_state : Interpreter :=
  { interpreter_load interpreter_init c7_source with
      running := true, current_line_index := 0, has_error := false }

/-- An interpreter whose next tokens are `a(0)`, with every array
unassigned (used to exercise `parse_primary` directly). -/
def c2_parse_state : Interpreter :=
  let it := { interpreter_init with lexer := lexer_init "a(0)".toList }
  interp_advance_token it

/-- Bookkeeping facts of one VM step, used by the cycle-cap argument:
continuing increments the cycle counter and stays under the cap; stopping
switches the machine off; the counter grows by at most one. -/
def StepFactsP (vm : SML_VM) (r : StepOut) : Prop :=
  (r.cont = true → r.vm.cycle_count = vm.cycle_count + 1 ∧
    r.vm.cycle_count < MAX_CYCLES ∧ r.vm.running = true) ∧
  (r.cont = false → r.vm.running = false) ∧
  (r.vm.cycle_count = vm.cycle_count ∨ r.vm.cycle_count = vm.cycle_count + 1)

/-- A compiler state that already holds one variable, one constant, and
one array symbol (used by the interning witness). -/
def c6_intern_state : Compiler :=
  { compiler_init with
      symbols :=
        [ { type := SymbolType.SYMBOL_VARIABLE, symbol := 0, location := 99, size := 0 },
          { type := SymbolType.SYMBOL_CONSTANT, symbol := 5, location := 98, size := 0 },
          { type := SymbolType.SYMBOL_ARRAY, symbol := 1, location := 97, size := 3 } ] }

/-- A compiler state holding one resolved-line symbol and one recorded
forward reference (used by the flag-resolution witness): cell 3 holds the
emitted word 4000 (BRANCH with placeholder operand), and line 20 was
recorded at instruction address 7. -/
def c4_state : Compiler :=
  { compiler_init with
      symbols :=
        [ { type := SymbolType.SYMBOL_LINE, symbol := 20, location := 7, size := 0 } ]
      flags := [ { instruction_location := 3, target_line_number := 20 } ]
      memory := (List.replicate 100 0).set 3 4000 }

/-- An interpreter whose next tokens are `x+1`, with every scalar
unassigned (used to exercise the scalar read path of `parse_primary`). -/
def c2_scalar_state : Interpreter :=
  let it := { interpreter_init with lexer := lexer_init "x+1".toList }
  interp_advance_token it

/-! # Theorems -/

/-! ## Arithmetic helpers for the decode of negative instruction words -/

/-- Truncating remainder of a negative number is nonpositive. -/
theorem tmod_nonpos_of_neg (a : Int) (h : a < 0) : Int.tmod a 100 ≤ 0 := by
  match a, h with
  | Int.negSucc m, _ =>
    simp [Int.tmod]
    omega

/-- If 100 divides a negative number, its truncating quotient by 100 is
negative. -/
theorem tdiv_neg_of_neg (a : Int) (h : a < 0) (h2 : Int.tmod a 100 = 0) :
    Int.tdiv a 100 < 0 := by
  have h3 := Int.tdiv_add_tmod a 100
  omega

/-! ## VM step lemmas -/

/-- `vm_advance` never writes memory. -/
theorem vm_advance_memory (w : SML_VM) (inp : List Int) (out : List VMEvent)
    (pc : Int) : (vm_advance w inp out pc).vm.memory = w.memory := by
  unfold vm_advance
  dsimp only
  split <;> rfl

/-- Cycle/continuation bookkeeping of `vm_advance`: the counter always
advances by one; continuing means it stayed under the cap, stopping here
means the machine was switched off. -/
theorem vm_advance_facts (w : SML_VM) (inp : List Int) (out : List VMEvent)
    (pc : Int) (hw : w.running = true) :
    ((vm_advance w inp out pc).cont = true →
       (vm_advance w inp out pc).vm.cycle_count = w.cycle_count + 1 ∧
       (vm_advance w inp out pc).vm.cycle_count < MAX_CYCLES ∧
       (vm_advance w inp out pc).vm.running = true) ∧
    ((vm_advance w inp out pc).cont = false →
       (vm_advance w inp out pc).vm.running = false) ∧
    (vm_advance w inp out pc).vm.cycle_count = w.cycle_count + 1 := by
  unfold vm_advance
  dsimp only
  split
  · exact ⟨fun h => by simp at h, fun _ => rfl, rfl⟩
  · refine ⟨fun _ => ⟨rfl, ?_, hw⟩, fun h => by simp at h, rfl⟩
    show w.cycle_count + 1 < MAX_CYCLES
    omega

/-- `vm_advance` establishes the step bookkeeping facts for the machine
state it came from. -/
theorem vm_advance_step_facts (vm w : SML_VM) (inp : List Int)
    (out : List VMEvent) (pc : Int) (hw : w.running = vm.running)
    (hc : w.cycle_count = vm.cycle_count) (hrun : vm.running = true) :
    StepFactsP vm (vm_advance w inp out pc) := by
  unfold vm_advance StepFactsP
  dsimp only
  split
  · exact ⟨fun h => by simp at h, fun _ => rfl, Or.inr (by rw [hc])⟩
  · refine ⟨fun _ => ⟨by rw [hc], ?_, by rw [hw, hrun]⟩, fun h => by simp at h,
      Or.inr (by rw [hc])⟩
    show w.cycle_count + 1 < MAX_CYCLES
    omega

set_option maxHeartbeats 2000000 in
/-- Every step taken from a running machine obeys `StepFactsP`. -/
theorem sml_vm_step_facts (vm : SML_VM) (input : List Int)
    (hrun : vm.running = true) : StepFactsP vm (sml_vm_step vm input) := by
  unfold sml_vm_step
  dsimp only
  rw [if_neg (by simp [hrun] : ¬vm.running = false)]
  by_cases h2 : vm.instruction_counter < 0 ∨ MEMORY_SIZE ≤ vm.instruction_counter
  · rw [if_pos h2]; exact ⟨fun h => by simp at h, fun _ => rfl, Or.inl rfl⟩
  rw [if_neg h2]
  by_cases h3 : Int.tmod (memGet vm.memory vm.instruction_counter) 100 < 0 ∨
      MEMORY_SIZE ≤ Int.tmod (memGet vm.memory vm.instruction_counter) 100
  · rw [if_pos h3]; exact ⟨fun h => by simp at h, fun _ => rfl, Or.inl rfl⟩
  rw [if_neg h3]
  by_cases hR : Int.tdiv (memGet vm.memory vm.instruction_counter) 100 = SML_READ
  · rw [if_pos hR]
    by_cases hin : input.isEmpty = true
    · rw [if_pos hin]; exact ⟨fun h => by simp at h, fun _ => rfl, Or.inl rfl⟩
    · rw [if_neg hin]
      exact vm_advance_step_facts vm _ _ _ _ rfl rfl hrun
  rw [if_neg hR]
  by_cases hA : Int.tdiv (memGet vm.memory vm.instruction_counter) 100 = SML_WRITE
  · rw [if_pos hA]
    exact vm_advance_step_facts vm _ _ _ _ rfl rfl hrun
  rw [if_neg hA]
  by_cases hB : Int.tdiv (memGet vm.memory vm.instruction_counter) 100 = SML_NEWLINE
  · rw [if_pos hB]
    exact vm_advance_step_facts vm _ _ _ _ rfl rfl hrun
  rw [if_neg hB]
  by_cases hC : Int.tdiv (memGet vm.memory vm.instruction_counter) 100 = SML_WRITES
  · rw [if_pos hC]
    exact vm_advance_step_facts vm _ _ _ _ rfl rfl hrun
  rw [if_neg hC]
  by_cases hD : Int.tdiv (memGet vm.memory vm.instruction_counter) 100 = SML_LOAD
  · rw [if_pos hD]
    exact vm_advance_step_facts vm _ _ _ _ rfl rfl hrun
  rw [if_neg hD]
  by_cases hE : Int.tdiv (memGet vm.memory vm.instruction_counter) 100 = SML_STORE
  · rw [if_pos hE]
    exact vm_advance_step_facts vm _ _ _ _ rfl rfl hrun
  rw [if_neg hE]
  by_cases hF : Int.tdiv (memGet vm.memory vm.instruction_counter) 100 = SML_ADD
  · rw [if_pos hF]
    exact vm_advance_step_facts vm _ _ _ _ rfl rfl hrun
  rw [if_neg hF]
  by_cases hG : Int.tdiv (memGet vm.memory vm.instruction_counter) 100 = SML_SUBTRACT
  · rw [if_pos hG]
    exact vm_advance_step_facts vm _ _ _ _ rfl rfl hrun
  rw [if_neg hG]
  by_cases hH : Int.tdiv (memGet vm.memory vm.instruction_counter) 100 = SML_DIVIDE
  · rw [if_pos hH]
    by_cases hH0 : memGet vm.memory (Int.tmod (memGet vm.memory vm.instruction_counter) 100) = 0
    · rw [if_pos hH0]; exact ⟨fun h => by simp at h, fun _ => rfl, Or.inl rfl⟩
    · rw [if_neg hH0]
      exact vm_advance_step_facts vm _ _ _ _ rfl rfl hrun
  rw [if_neg hH]
  by_cases hI : Int.tdiv (memGet vm.memory vm.instruction_counter) 100 = SML_MULTIPLY
  · rw [if_pos hI]
    exact vm_advance_step_facts vm _ _ _ _ rfl rfl hrun
  rw [if_neg hI]
  by_cases hJ : Int.tdiv (memGet vm.memory vm.instruction_counter) 100 = SML_MOD
  · rw [if_pos hJ]
    by_cases hJ0 : memGet vm.memory (Int.tmod (memGet vm.memory vm.instruction_counter) 100) = 0
    · rw [if_pos hJ0]; exact ⟨fun h => by simp at h, fun _ => rfl, Or.inl rfl⟩
    · rw [if_neg hJ0]
      exact vm_advance_step_facts vm _ _ _ _ rfl rfl hrun
  rw [if_neg hJ]
  by_cases hK : Int.tdiv (memGet vm.memory vm.instruction_counter) 100 = SML_BRANCH
  · rw [if_pos hK]
    exact vm_advance_step_facts vm _ _ _ _ rfl rfl hrun
  rw [if_neg hK]
  by_cases hL : Int.tdiv (memGet vm.memory vm.instruction_counter) 100 = SML_BRANCHNEG
  · rw [if_pos hL]
    exact vm_advance_step_facts vm _ _ _ _ rfl rfl hrun
  rw [if_neg hL]
  by_cases hM : Int.tdiv (memGet vm.memory vm.instruction_counter) 100 = SML_BRANCHZERO
  · rw [if_pos hM]
    exact vm_advance_step_facts vm _ _ _ _ rfl rfl hrun
  rw [if_neg hM]
  by_cases hN : Int.tdiv (memGet vm.memory vm.instruction_counter) 100 = SML_HALT
  · rw [if_pos hN]; exact ⟨fun h => by simp at h, fun _ => rfl, Or.inl rfl⟩
  · rw [if_neg hN]; exact ⟨fun h => by simp at h, fun _ => rfl, Or.inl rfl⟩

/-- A stopped machine is left untouched by `sml_vm_run`. -/
theorem sml_vm_run_not_running (g : Nat) (vm : SML_VM) (input : List Int)
    (h : vm.running = false) : sml_vm_run g vm input = ⟨vm, input, []⟩ := by
  cases g <;> simp [sml_vm_run, h]

/-- Once a run has switched the machine off, giving it more fuel changes
nothing: the C `while` loop has already exited. -/
theorem sml_vm_run_stable : ∀ (f g : Nat) (vm : SML_VM) (input : List Int),
    f ≤ g → (sml_vm_run f vm input).vm.running = false →
    sml_vm_run g vm input = sml_vm_run f vm input := by
  intro f
  induction f with
  | zero =>
    intro g vm input _ h
    have h0 : vm.running = false := h
    rw [sml_vm_run_not_running g vm input h0]
    rfl
  | succ f ih =>
    intro g vm input hle h
    obtain ⟨g, rfl⟩ : ∃ k, g = k + 1 := ⟨g - 1, by omega⟩
    by_cases hr : vm.running = true
    · simp only [sml_vm_run] at h ⊢
      rw [if_pos hr] at h
      rw [if_pos hr, if_pos hr]
      by_cases hc : (sml_vm_step vm input).cont = true
      · rw [if_pos hc] at h
        rw [if_pos hc, if_pos hc]
        have h1 : (sml_vm_run f (sml_vm_step vm input).vm
            (sml_vm_step vm input).input).vm.running = false := h
        rw [ih g _ _ (by omega) h1]
      · rw [if_neg hc, if_neg hc]
    · have hr0 : vm.running = false := by
        cases hb : vm.running
        · rfl
        · exact absurd hb hr
      rw [sml_vm_run_not_running _ _ _ hr0, sml_vm_run_not_running _ _ _ hr0]

/-- A run whose fuel covers the remaining cycle budget switches the
machine off: each continuing step raises the counter toward the cap. -/
theorem sml_vm_run_halts : ∀ (f : Nat) (vm : SML_VM) (input : List Int),
    vm.cycle_count < MAX_CYCLES → MAX_CYCLES ≤ vm.cycle_count + (f : Int) →
    (sml_vm_run f vm input).vm.running = false := by
  intro f
  induction f with
  | zero =>
    intro vm input h1 h2
    exact absurd h1 (by push_cast at h2; omega)
  | succ f ih =>
    intro vm input h1 h2
    by_cases hr : vm.running = true
    · simp only [sml_vm_run]
      rw [if_pos hr]
      obtain ⟨f1, f2, _⟩ := sml_vm_step_facts vm input hr
      by_cases hc : (sml_vm_step vm input).cont = true
      · rw [if_pos hc]
        obtain ⟨e1, e2, _⟩ := f1 hc
        show (sml_vm_run f (sml_vm_step vm input).vm
          (sml_vm_step vm input).input).vm.running = false
        refine ih _ _ e2 ?_
        rw [e1]
        push_cast at h2 ⊢
        omega
      · rw [if_neg hc]
        exact f2 (by simpa using hc)
    · have hr0 : vm.running = false := by
        cases hb : vm.running
        · rfl
        · exact absurd hb hr
      rw [sml_vm_run_not_running _ _ _ hr0]
      exact hr0

/-- The cycle counter never leaves a run above the cap. -/
theorem sml_vm_run_cycle_le : ∀ (f : Nat) (vm : SML_VM) (input : List Int),
    vm.cycle_count < MAX_CYCLES →
    (sml_vm_run f vm input).vm.cycle_count ≤ MAX_CYCLES := by
  intro f
  induction f with
  | zero => intro vm input h1; exact le_of_lt h1
  | succ f ih =>
    intro vm input h1
    by_cases hr : vm.running = true
    · simp only [sml_vm_run]
      rw [if_pos hr]
      obtain ⟨f1, _, f3⟩ := sml_vm_step_facts vm input hr
      by_cases hc : (sml_vm_step vm input).cont = true
      · rw [if_pos hc]
        show (sml_vm_run f (sml_vm_step vm input).vm
          (sml_vm_step vm input).input).vm.cycle_count ≤ MAX_CYCLES
        exact ih _ _ (f1 hc).2.1
      · rw [if_neg hc]
        show (sml_vm_step vm input).vm.cycle_count ≤ MAX_CYCLES
        omega
    · have hr0 : vm.running = false := by
        cases hb : vm.running
        · rfl
        · exact absurd hb hr
      rw [sml_vm_run_not_running _ _ _ hr0]
      exact le_of_lt h1

/-! ## Claim C10 -/

set_option maxHeartbeats 2000000 in
/-- C10: a single VM step whose fetched opcode is neither READ (10) nor
STORE (21) leaves all 100 memory cells unchanged; only READ and STORE can
mutate memory. -/
theorem C10_step_preserves_memory (vm : SML_VM) (input : List Int)
    (h10 : Int.tdiv (memGet vm.memory vm.instruction_counter) 100 ≠ SML_READ)
    (h21 : Int.tdiv (memGet vm.memory vm.instruction_counter) 100 ≠ SML_STORE) :
    (sml_vm_step vm input).vm.memory = vm.memory := by
  unfold sml_vm_step
  dsimp only
  by_cases h1 : vm.running = false
  · rw [if_pos h1]
  · rw [if_neg h1]
    by_cases h2 : vm.instruction_counter < 0 ∨ MEMORY_SIZE ≤ vm.instruction_counter
    · rw [if_pos h2]
    · rw [if_neg h2]
      by_cases h3 : Int.tmod (memGet vm.memory vm.instruction_counter) 100 < 0 ∨
          MEMORY_SIZE ≤ Int.tmod (memGet vm.memory vm.instruction_counter) 100
      · rw [if_pos h3]
      · rw [if_neg h3, if_neg h10, if_neg h21]
        by_cases hA : Int.tdiv (memGet vm.memory vm.instruction_counter) 100 = SML_WRITE
        · rw [if_pos hA]; exact vm_advance_memory _ _ _ _
        rw [if_neg hA]
        by_cases hB : Int.tdiv (memGet vm.memory vm.instruction_counter) 100 = SML_NEWLINE
        · rw [if_pos hB]; exact vm_advance_memory _ _ _ _
        rw [if_neg hB]
        by_cases hC : Int.tdiv (memGet vm.memory vm.instruction_counter) 100 = SML_WRITES
        · rw [if_pos hC]; exact vm_advance_memory _ _ _ _
        rw [if_neg hC]
        by_cases hD : Int.tdiv (memGet vm.memory vm.instruction_counter) 100 = SML_LOAD
        · rw [if_pos hD]; exact vm_advance_memory _ _ _ _
        rw [if_neg hD]
        by_cases hE : Int.tdiv (memGet vm.memory vm.instruction_counter) 100 = SML_ADD
        · rw [if_pos hE]; exact vm_advance_memory _ _ _ _
        rw [if_neg hE]
        by_cases hF : Int.tdiv (memGet vm.memory vm.instruction_counter) 100 = SML_SUBTRACT
        · rw [if_pos hF]; exact vm_advance_memory _ _ _ _
        rw [if_neg hF]
        by_cases hG : Int.tdiv (memGet vm.memory vm.instruction_counter) 100 = SML_DIVIDE
        · rw [if_pos hG]
          by_cases hG0 : memGet vm.memory (Int.tmod (memGet vm.memory vm.instruction_counter) 100) = 0
          · rw [if_pos hG0]
          · rw [if_neg hG0]; exact vm_advance_memory _ _ _ _
        rw [if_neg hG]
        by_cases hH : Int.tdiv (memGet vm.memory vm.instruction_counter) 100 = SML_MULTIPLY
        · rw [if_pos hH]; exact vm_advance_memory _ _ _ _
        rw [if_neg hH]
        by_cases hI : Int.tdiv (memGet vm.memory vm.instruction_counter) 100 = SML_MOD
        · rw [if_pos hI]
          by_cases hI0 : memGet vm.memory (Int.tmod (memGet vm.memory vm.instruction_counter) 100) = 0
          · rw [if_pos hI0]
          · rw [if_neg hI0]; exact vm_advance_memory _ _ _ _
        rw [if_neg hI]
        by_cases hJ : Int.tdiv (memGet vm.memory vm.instruction_counter) 100 = SML_BRANCH
        · rw [if_pos hJ]; exact vm_advance_memory _ _ _ _
        rw [if_neg hJ]
        by_cases hK : Int.tdiv (memGet vm.memory vm.instruction_counter) 100 = SML_BRANCHNEG
        · rw [if_pos hK]; exact vm_advance_memory _ _ _ _
        rw [if_neg hK]
        by_cases hL : Int.tdiv (memGet vm.memory vm.instruction_counter) 100 = SML_BRANCHZERO
        · rw [if_pos hL]; exact vm_advance_memory _ _ _ _
        rw [if_neg hL]
        by_cases hM : Int.tdiv (memGet vm.memory vm.instruction_counter) 100 = SML_HALT
        · rw [if_pos hM]
        · rw [if_neg hM]

/-- C10 witness: at the concrete LOAD instruction of `c5_memory` the step
indeed leaves memory unchanged. -/
theorem C10_step_preserves_memory_witness :
    Int.tdiv (memGet (sml_vm_load sml_vm_init c5_memory).memory
      (sml_vm_load sml_vm_init c5_memory).instruction_counter) 100 ≠ SML_READ ∧
    Int.tdiv (memGet (sml_vm_load sml_vm_init c5_memory).memory
      (sml_vm_load sml_vm_init c5_memory).instruction_counter) 100 ≠ SML_STORE ∧
    (sml_vm_step (sml_vm_load sml_vm_init c5_memory) []).vm.memory =
      (sml_vm_load sml_vm_init c5_memory).memory :=
  ⟨by decide, by decide,
    C10_step_preserves_memory (sml_vm_load sml_vm_init c5_memory) []
      (by decide) (by decide)⟩

/-! ## Claim C3 -/

/-- C3 counterexample: with `memory[0] = -7` the decoded operand is
`tmod (-7) 100 = -7 < 0`, so the step stops via the operand-range check
with "Invalid operand: -7 at PC=0" — not via the "Unknown opcode" arm as
the claim states. -/
theorem C3_counterexample :
    (sml_vm_step cvm3 []).vm.running = false ∧
    (sml_vm_step cvm3 []).vm.error_message = "Invalid operand: -7 at PC=0" ∧
    ¬ (sml_vm_step cvm3 []).vm.error_message = "Unknown opcode 0 at PC=0" := by
  refine ⟨by decide, by decide, by decide⟩

set_option maxHeartbeats 2000000 in
/-- C3 (amended): a step on a negative fetched word stops the machine, but
which error arm fires depends on the remainder: when `IR tmod 100 = 0` the
operand check passes and the negative opcode falls through to the
"Unknown opcode" arm; otherwise the operand is negative and the step stops
with "Invalid operand". -/
theorem C3_negative_word_error (vm : SML_VM) (input : List Int)
    (hrun : vm.running = true)
    (hpc : ¬(vm.instruction_counter < 0 ∨ MEMORY_SIZE ≤ vm.instruction_counter))
    (hneg : memGet vm.memory vm.instruction_counter < 0) :
    (sml_vm_step vm input).vm.running = false ∧
    (sml_vm_step vm input).vm.error_message =
      (if Int.tmod (memGet vm.memory vm.instruction_counter) 100 = 0 then
        "Unknown opcode " ++
          toString (Int.tdiv (memGet vm.memory vm.instruction_counter) 100) ++
          " at PC=" ++ toString vm.instruction_counter
      else
        "Invalid operand: " ++
          toString (Int.tmod (memGet vm.memory vm.instruction_counter) 100) ++
          " at PC=" ++ toString vm.instruction_counter) := by
  unfold sml_vm_step
  dsimp only
  rw [if_neg (by rw [hrun]; exact fun h => by simp at h :
    ¬ vm.running = false), if_neg hpc]
  have hle := tmod_nonpos_of_neg (memGet vm.memory vm.instruction_counter) hneg
  by_cases ht : Int.tmod (memGet vm.memory vm.instruction_counter) 100 = 0
  · have hop : ¬(Int.tmod (memGet vm.memory vm.instruction_counter) 100 < 0 ∨
        MEMORY_SIZE ≤ Int.tmod (memGet vm.memory vm.instruction_counter) 100) := by
      rw [ht]; decide
    rw [if_neg hop]
    have hO := tdiv_neg_of_neg (memGet vm.memory vm.instruction_counter) hneg ht
    have hne : ∀ k : Int, 0 < k →
        Int.tdiv (memGet vm.memory vm.instruction_counter) 100 ≠ k := by
      intro k hk hEq
      omega
    rw [if_neg (hne SML_READ (by decide)), if_neg (hne SML_WRITE (by decide)),
      if_neg (hne SML_NEWLINE (by decide)), if_neg (hne SML_WRITES (by decide)),
      if_neg (hne SML_LOAD (by decide)), if_neg (hne SML_STORE (by decide)),
      if_neg (hne SML_ADD (by decide)), if_neg (hne SML_SUBTRACT (by decide)),
      if_neg (hne SML_DIVIDE (by decide)), if_neg (hne SML_MULTIPLY (by decide)),
      if_neg (hne SML_MOD (by decide)), if_neg (hne SML_BRANCH (by decide)),
      if_neg (hne SML_BRANCHNEG (by decide)), if_neg (hne SML_BRANCHZERO (by decide)),
      if_neg (hne SML_HALT (by decide)), if_pos ht]
    exact ⟨rfl, rfl⟩
  · have hlt : Int.tmod (memGet vm.memory vm.instruction_counter) 100 < 0 := by
      omega
    rw [if_pos (Or.inl hlt), if_neg ht]
    exact ⟨rfl, rfl⟩

/-- C3 witness: the amended theorem applied to the concrete machine with
`memory[0] = -7`. -/
theorem C3_negative_word_error_witness :
    cvm3.running = true ∧
    ¬(cvm3.instruction_counter < 0 ∨ MEMORY_SIZE ≤ cvm3.instruction_counter) ∧
    memGet cvm3.memory cvm3.instruction_counter < 0 ∧
    ((sml_vm_step cvm3 []).vm.running = false ∧
     (sml_vm_step cvm3 []).vm.error_message =
      (if Int.tmod (memGet cvm3.memory cvm3.instruction_counter) 100 = 0 then
        "Unknown opcode " ++
          toString (Int.tdiv (memGet cvm3.memory cvm3.instruction_counter) 100) ++
          " at PC=" ++ toString cvm3.instruction_counter
      else
        "Invalid operand: " ++
          toString (Int.tmod (memGet cvm3.memory cvm3.instruction_counter) 100) ++
          " at PC=" ++ toString cvm3.instruction_counter)) :=
  ⟨by decide, by decide, by decide,
    C3_negative_word_error cvm3 [] (by decide) (by decide) (by decide)⟩

/-! ## Claim C9 -/

/-- C9: for every loaded memory image and input stream, a run with fuel
covering the cycle budget terminates — the machine ends with
`running = false`, the cycle counter never exceeds the 100,000 cap, and
further fuel changes nothing (the loop has exited). -/
theorem C9_run_terminates (mem input : List Int) (f : Nat)
    (hf : 100001 ≤ f) :
    (sml_vm_run f (sml_vm_load sml_vm_init mem) input).vm.running = false ∧
    (sml_vm_run f (sml_vm_load sml_vm_init mem) input).vm.cycle_count ≤ MAX_CYCLES ∧
    sml_vm_run f (sml_vm_load sml_vm_init mem) input =
      sml_vm_run 100001 (sml_vm_load sml_vm_init mem) input := by
  have h0 : (sml_vm_load sml_vm_init mem).cycle_count = 0 := rfl
  have h1 : (sml_vm_load sml_vm_init mem).cycle_count < MAX_CYCLES := by
    rw [h0]; decide
  have h2 := sml_vm_run_halts 100001 (sml_vm_load sml_vm_init mem) input h1
    (by rw [h0]; decide)
  have h3 := sml_vm_run_stable 100001 f (sml_vm_load sml_vm_init mem) input hf h2
  refine ⟨?_, ?_, h3⟩
  · rw [h3]; exact h2
  · rw [h3]; exact sml_vm_run_cycle_le 100001 (sml_vm_load sml_vm_init mem) input h1

/-- C9 witness: the termination theorem applied at the all-zero image
(opcode 0 is unknown, so the very first step stops the machine) with the
exact budget fuel. -/
theorem C9_run_terminates_witness :
    100001 ≤ 100001 ∧
    ((sml_vm_run 100001 (sml_vm_load sml_vm_init zeroMemory) []).vm.running = false ∧
     (sml_vm_run 100001 (sml_vm_load sml_vm_init zeroMemory) []).vm.cycle_count ≤ MAX_CYCLES ∧
     sml_vm_run 100001 (sml_vm_load sml_vm_init zeroMemory) [] =
       sml_vm_run 100001 (sml_vm_load sml_vm_init zeroMemory) []) :=
  ⟨le_refl 100001, C9_run_terminates zeroMemory [] 100001 (le_refl 100001)⟩

/-! ## Claim C5 -/

/-- C5 counterexample: the LOAD/HALT image finishes with cycle count 1,
not 2 — the HALT arm returns before the cycle counter is incremented, so
only the LOAD step is counted. -/
theorem C5_counterexample :
    (sml_vm_run 100001 (sml_vm_load sml_vm_init c5_memory) []).vm.cycle_count = 1 ∧
    ¬ (sml_vm_run 100001 (sml_vm_load sml_vm_init c5_memory) []).vm.cycle_count = 2 := by
  have hs : (sml_vm_run 2 (sml_vm_load sml_vm_init c5_memory) []).vm.running = false := by
    decide
  have he := sml_vm_run_stable 2 100001 (sml_vm_load sml_vm_init c5_memory) []
    (by omega) hs
  rw [he]
  exact ⟨by decide, by decide⟩

/-- C5 (amended): running the LOAD 50 / HALT image with `memory[50] = -7`
leaves accumulator −7, running = false, no error — and cycle count 1. -/
theorem C5_run_result (f : Nat) (hf : 2 ≤ f) :
    (sml_vm_run f (sml_vm_load sml_vm_init c5_memory) []).vm.accumulator = -7 ∧
    (sml_vm_run f (sml_vm_load sml_vm_init c5_memory) []).vm.cycle_count = 1 ∧
    (sml_vm_run f (sml_vm_load sml_vm_init c5_memory) []).vm.running = false ∧
    (sml_vm_run f (sml_vm_load sml_vm_init c5_memory) []).vm.error_message = "" := by
  have hs : (sml_vm_run 2 (sml_vm_load sml_vm_init c5_memory) []).vm.running = false := by
    decide
  have he := sml_vm_run_stable 2 f (sml_vm_load sml_vm_init c5_memory) [] hf hs
  rw [he]
  exact ⟨by decide, by decide, by decide, by decide⟩

/-- C5 witness: the amended theorem at fuel 2, where the run can be
evaluated outright. -/
theorem C5_run_result_witness :
    2 ≤ 2 ∧
    ((sml_vm_run 2 (sml_vm_load sml_vm_init c5_memory) []).vm.accumulator = -7 ∧
     (sml_vm_run 2 (sml_vm_load sml_vm_init c5_memory) []).vm.cycle_count = 1 ∧
     (sml_vm_run 2 (sml_vm_load sml_vm_init c5_memory) []).vm.running = false ∧
     (sml_vm_run 2 (sml_vm_load sml_vm_init c5_memory) []).vm.error_message = "") :=
  ⟨le_refl 2, C5_run_result 2 (le_refl 2)⟩

/-! ## Claim C1 -/

/-- C1 counterexample: a successful `emit` at `instruction_counter = 98`
reaches `instruction_counter = data_counter = 99` with no error, and
`store_string` (which has no collision check at all) drives the data
counter from 5 down to 2, past the instruction counter 5, with no
error. -/
theorem C1_counterexample :
    (emit c1_emit_state 4300).instruction_counter = 99 ∧
    (emit c1_emit_state 4300).data_counter = 99 ∧
    (emit c1_emit_state 4300).has_error = false ∧
    (store_string c1_string_state "\"ab\"".toList).2.instruction_counter = 5 ∧
    (store_string c1_string_state "\"ab\"".toList).2.data_counter = 2 ∧
    (store_string c1_string_state "\"ab\"".toList).2.has_error = false := by
  refine ⟨by decide, by decide, by decide, by decide, by decide, by decide⟩

/-- C1 (amended): `emit` and `alloc_data` maintain the non-strict bound
`instruction_counter ≤ data_counter` (the counters may meet after a
successful call) and raise the collision error exactly when the regions
already touch; `store_string` is not covered by any such check (see the
counterexample). -/
theorem C1_emit_alloc_bound (comp : Compiler) (instruction : Int) :
    (comp.instruction_counter < comp.data_counter →
      (emit comp instruction).instruction_counter ≤ (emit comp instruction).data_counter ∧
      (alloc_data comp).2.instruction_counter ≤ (alloc_data comp).2.data_counter) ∧
    (comp.data_counter ≤ comp.instruction_counter →
      (emit comp instruction).has_error = true ∧
      (emit comp instruction).error_message = "Memory overflow: code and data collision" ∧
      (alloc_data comp).2.has_error = true ∧
      (alloc_data comp).2.error_message = "Memory overflow: code and data collision") := by
  unfold emit alloc_data compiler_set_error
  by_cases hc : comp.data_counter ≤ comp.instruction_counter
  · constructor
    · intro h
      exact absurd h (not_lt.mpr hc)
    · intro _
      rw [if_pos hc, if_pos hc]
      exact ⟨rfl, rfl, rfl, rfl⟩
  · constructor
    · intro _
      rw [if_neg hc, if_neg hc]
      constructor
      · show comp.instruction_counter + 1 ≤ comp.data_counter
        omega
      · show comp.instruction_counter ≤ comp.data_counter - 1
        omega
    · intro h
      exact absurd h hc

/-- C1 witness: the amended bound applied at the freshly initialised
compiler (counters 0 and 99). -/
theorem C1_emit_alloc_bound_witness :
    compiler_init.instruction_counter < compiler_init.data_counter ∧
    (emit compiler_init 1007).instruction_counter ≤
      (emit compiler_init 1007).data_counter ∧
    (alloc_data compiler_init).2.instruction_counter ≤
      (alloc_data compiler_init).2.data_counter :=
  ⟨by decide, (C1_emit_alloc_bound compiler_init 1007).1 (by decide)⟩

/-! ## Claim C6 -/

/-- C6 counterexample: the two-line program "10 end / 10 end" is accepted
by the compiler, yet the finished symbol table holds two LINE entries for
line number 10 - `compile_line` adds a LINE symbol unconditionally. -/
theorem C6_counterexample :
    (compiler_compile compiler_init c6_source).1 = true ∧
    ((compiler_compile compiler_init c6_source).2.symbols.filter
      (fun s => s.type = SymbolType.SYMBOL_LINE ∧ s.symbol = 10)).length = 2 := by
  refine ⟨by decide, by decide⟩

/-- C6 (amended): interning does hold for variables, constants, and
arrays - when a symbol of the matching kind and key already exists, the
lookup returns its recorded location and the compiler state is unchanged,
so no duplicate entry is ever created for these kinds.  (LINE symbols are
the exception: see the counterexample.) -/
theorem C6_intern_no_duplicate (comp : Compiler) (idx value aidx asize : Int)
    (s1 s2 s3 : CSymbol)
    (h1 : find_symbol comp SymbolType.SYMBOL_VARIABLE idx = some s1)
    (h2 : find_symbol comp SymbolType.SYMBOL_CONSTANT value = some s2)
    (h3 : find_symbol comp SymbolType.SYMBOL_ARRAY aidx = some s3) :
    get_or_create_variable comp idx = (s1.location, comp) ∧
    get_or_create_constant comp value = (s2.location, comp) ∧
    get_or_create_array comp aidx asize = (s3.location, comp) := by
  unfold get_or_create_variable get_or_create_constant get_or_create_array
  rw [h1, h2, h3]
  exact ⟨rfl, rfl, rfl⟩

/-- C6 witness: interning applied at a table that already holds one
variable, one constant, and one array symbol. -/
theorem C6_intern_no_duplicate_witness :
    find_symbol c6_intern_state SymbolType.SYMBOL_VARIABLE 0 =
      some { type := SymbolType.SYMBOL_VARIABLE, symbol := 0, location := 99, size := 0 } ∧
    find_symbol c6_intern_state SymbolType.SYMBOL_CONSTANT 5 =
      some { type := SymbolType.SYMBOL_CONSTANT, symbol := 5, location := 98, size := 0 } ∧
    find_symbol c6_intern_state SymbolType.SYMBOL_ARRAY 1 =
      some { type := SymbolType.SYMBOL_ARRAY, symbol := 1, location := 97, size := 3 } ∧
    (get_or_create_variable c6_intern_state 0 = (99, c6_intern_state) ∧
     get_or_create_constant c6_intern_state 5 = (98, c6_intern_state) ∧
     get_or_create_array c6_intern_state 1 4 = (97, c6_intern_state)) :=
  ⟨by decide, by decide, by decide,
    C6_intern_no_duplicate c6_intern_state 0 5 1 4
      { type := SymbolType.SYMBOL_VARIABLE, symbol := 0, location := 99, size := 0 }
      { type := SymbolType.SYMBOL_CONSTANT, symbol := 5, location := 98, size := 0 }
      { type := SymbolType.SYMBOL_ARRAY, symbol := 1, location := 97, size := 3 }
      (by decide) (by decide) (by decide)⟩

/-! ## Claim C4 -/

/-- Writing one (in-range-indexed) memory cell leaves other nonnegative
indices unchanged. -/
theorem memGet_memSet_ne (m : List Int) (l lp v : Int) (h0 : 0 ≤ l) (h0p : 0 ≤ lp)
    (hne : l ≠ lp) : memGet (memSet m lp v) l = memGet m l := by
  unfold memGet memSet
  rw [List.getD, List.getD, List.get?_eq_getElem?, List.get?_eq_getElem?,
    List.getElem?_set_ne (by omega)]

/-- Reading back a just-written in-range memory cell. -/
theorem memGet_memSet_eq (m : List Int) (l v : Int) (h0 : 0 ≤ l)
    (hl : l < (m.length : Int)) : memGet (memSet m l v) l = v := by
  unfold memGet memSet
  rw [List.getD, List.get?_eq_getElem?, List.getElem?_set_self (by omega)]
  rfl

/-- `memSet` preserves the memory size. -/
theorem memSet_length (m : List Int) (l v : Int) :
    (memSet m l v).length = m.length := by
  unfold memSet
  exact List.length_set m l.toNat v

/-- Reading opcode and operand back out of `opcode * 100 + operand`. -/
theorem tdiv_tmod_decompose (a b : Int) (ha : 0 ≤ a) (hb0 : 0 ≤ b) (hb1 : b < 100) :
    Int.tdiv (a * 100 + b) 100 = a ∧ Int.tmod (a * 100 + b) 100 = b := by
  have hX : 0 ≤ a * 100 + b := by nlinarith
  have h1 := Int.tdiv_add_tmod (a * 100 + b) 100
  have h2 : 0 ≤ Int.tmod (a * 100 + b) 100 := Int.tmod_nonneg 100 hX
  have h3 : Int.tmod (a * 100 + b) 100 < 100 := Int.tmod_lt_of_pos _ (by decide)
  constructor <;> omega

/-- When every recorded target line is defined, pass two only patches the
flagged memory cells: symbols, error state, memory size, and every other
(nonnegative-indexed) cell are untouched. -/
theorem resolve_aux_found : ∀ (fl : List CFlag) (comp : Compiler),
    (∀ f ∈ fl, 0 ≤ f.instruction_location) →
    (∀ f ∈ fl, find_symbol comp SymbolType.SYMBOL_LINE f.target_line_number ≠ none) →
    (resolve_flags_aux fl comp).symbols = comp.symbols ∧
    (resolve_flags_aux fl comp).has_error = comp.has_error ∧
    (resolve_flags_aux fl comp).memory.length = comp.memory.length ∧
    ∀ l : Int, 0 ≤ l → l ∉ fl.map (fun f => f.instruction_location) →
      memGet (resolve_flags_aux fl comp).memory l = memGet comp.memory l := by
  intro fl
  induction fl with
  | nil =>
    intro comp _ _
    exact ⟨rfl, rfl, rfl, fun l _ _ => rfl⟩
  | cons g rest ih =>
    intro comp hrange hall
    have hg := hall g (List.mem_cons_self g rest)
    obtain ⟨sg, hsg⟩ : ∃ s,
        find_symbol comp SymbolType.SYMBOL_LINE g.target_line_number = some s := by
      cases hfind : find_symbol comp SymbolType.SYMBOL_LINE g.target_line_number with
      | none => exact absurd hfind hg
      | some s => exact ⟨s, rfl⟩
    unfold resolve_flags_aux
    rw [hsg]
    dsimp only
    have hrange2 : ∀ f ∈ rest, 0 ≤ f.instruction_location :=
      fun f hf => hrange f (List.mem_cons_of_mem g hf)
    have hall2 : ∀ f ∈ rest,
        find_symbol { comp with
            memory := memSet comp.memory g.instruction_location
              (Int.tdiv (memGet comp.memory g.instruction_location) 100 * 100 +
                sg.location) }
          SymbolType.SYMBOL_LINE f.target_line_number ≠ none :=
      fun f hf => hall f (List.mem_cons_of_mem g hf)
    obtain ⟨e1, e2, e3, e4⟩ := ih _ hrange2 hall2
    refine ⟨e1, e2, ?_, ?_⟩
    · rw [e3]
      exact memSet_length comp.memory g.instruction_location _
    · intro l hl0 hl
      simp only [List.map_cons, List.mem_cons, not_or] at hl
      rw [e4 l hl0 hl.2]
      exact memGet_memSet_ne comp.memory l g.instruction_location _ hl0
        (hrange g (List.mem_cons_self g rest)) hl.1

/-- When every recorded target line is defined and the flagged cells are
distinct and in range, pass two rewrites each flagged cell to
`opcode * 100 + resolved address`, with the opcode taken from the word
that pass one emitted there. -/
theorem resolve_aux_patch : ∀ (fl : List CFlag) (comp : Compiler),
    (fl.map (fun f => f.instruction_location)).Nodup →
    (∀ f ∈ fl, 0 ≤ f.instruction_location ∧
      f.instruction_location < (comp.memory.length : Int)) →
    (∀ f ∈ fl, find_symbol comp SymbolType.SYMBOL_LINE f.target_line_number ≠ none) →
    ∀ f ∈ fl, ∀ s,
      find_symbol comp SymbolType.SYMBOL_LINE f.target_line_number = some s →
      memGet (resolve_flags_aux fl comp).memory f.instruction_location =
        Int.tdiv (memGet comp.memory f.instruction_location) 100 * 100 + s.location := by
  intro fl
  induction fl with
  | nil =>
    intro comp _ _ _ f hf
    exact absurd hf (List.not_mem_nil f)
  | cons g rest ih =>
    intro comp hnd hrange hall f hf s hfs
    have hg := hall g (List.mem_cons_self g rest)
    obtain ⟨sg, hsg⟩ : ∃ u,
        find_symbol comp SymbolType.SYMBOL_LINE g.target_line_number = some u := by
      cases hfind : find_symbol comp SymbolType.SYMBOL_LINE g.target_line_number with
      | none => exact absurd hfind hg
      | some u => exact ⟨u, rfl⟩
    simp only [List.map_cons, List.nodup_cons] at hnd
    have hgr := hrange g (List.mem_cons_self g rest)
    unfold resolve_flags_aux
    rw [hsg]
    dsimp only
    have hrange2 : ∀ f ∈ rest, 0 ≤ f.instruction_location ∧
        f.instruction_location <
          ((memSet comp.memory g.instruction_location
            (Int.tdiv (memGet comp.memory g.instruction_location) 100 * 100 +
              sg.location)).length : Int) := by
      intro f hf
      rw [memSet_length]
      exact hrange f (List.mem_cons_of_mem g hf)
    have hall2 : ∀ f ∈ rest,
        find_symbol { comp with
            memory := memSet comp.memory g.instruction_location
              (Int.tdiv (memGet comp.memory g.instruction_location) 100 * 100 +
                sg.location) }
          SymbolType.SYMBOL_LINE f.target_line_number ≠ none :=
      fun f hf => hall f (List.mem_cons_of_mem g hf)
    rcases List.mem_cons.mp hf with rfl | hfr
    · have hssg : s = sg := by
        rw [hfs] at hsg
        exact Option.some.inj hsg
      subst hssg
      have hrest0 : ∀ x ∈ rest, 0 ≤ x.instruction_location :=
        fun x hx => (hrange x (List.mem_cons_of_mem _ hx)).1
      obtain ⟨_, _, _, e4⟩ := resolve_aux_found rest _ hrest0 hall2
      rw [e4 f.instruction_location hgr.1 hnd.1]
      exact memGet_memSet_eq comp.memory f.instruction_location _ hgr.1 hgr.2
    · have hne : f.instruction_location ≠ g.instruction_location := by
        intro h
        exact hnd.1 (h ▸ List.mem_map_of_mem (fun x => x.instruction_location) hfr)
      rw [ih _ hnd.2 hrange2 hall2 f hfr s hfs]
      rw [memGet_memSet_ne comp.memory f.instruction_location g.instruction_location _
        (hrange f (List.mem_cons_of_mem g hfr)).1 hgr.1 hne]

/-- Pass two stops at the first flag whose target line was never defined,
with the "Undefined line number" error. -/
theorem resolve_aux_missing : ∀ (pre : List CFlag) (f : CFlag) (post : List CFlag)
    (comp : Compiler),
    (∀ g ∈ pre, find_symbol comp SymbolType.SYMBOL_LINE g.target_line_number ≠ none) →
    find_symbol comp SymbolType.SYMBOL_LINE f.target_line_number = none →
    (resolve_flags_aux (pre ++ f :: post) comp).has_error = true ∧
    (resolve_flags_aux (pre ++ f :: post) comp).error_message =
      "Undefined line number: " ++ toString f.target_line_number := by
  intro pre
  induction pre with
  | nil =>
    intro f post comp _ hf
    rw [List.nil_append]
    unfold resolve_flags_aux
    rw [hf]
    exact ⟨rfl, rfl⟩
  | cons g pre ih =>
    intro f post comp hall hf
    have hg := hall g (List.mem_cons_self g pre)
    obtain ⟨sg, hsg⟩ : ∃ u,
        find_symbol comp SymbolType.SYMBOL_LINE g.target_line_number = some u := by
      cases hfind : find_symbol comp SymbolType.SYMBOL_LINE g.target_line_number with
      | none => exact absurd hfind hg
      | some u => exact ⟨u, rfl⟩
    rw [List.cons_append]
    unfold resolve_flags_aux
    rw [hsg]
    dsimp only
    exact ih f post _ (fun x hx => hall x (List.mem_cons_of_mem g hx)) hf

/-- C4: flag resolution.  When the recorded instruction cells are distinct
and in range, then (a) if every recorded target line has a LINE symbol,
pass two finishes without error and rewrites each flagged word to
`opcode * 100 + address-of-LINE-symbol` — so for nonnegative emitted words
and in-range addresses the patched word decodes to the original opcode and
the resolved operand; and (b) if some recorded target has no LINE symbol,
resolution stops at the first such flag with "Undefined line number: N". -/
theorem C4_resolve_flags_correct (comp : Compiler)
    (hnd : (comp.flags.map (fun f => f.instruction_location)).Nodup)
    (hrange : ∀ f ∈ comp.flags, 0 ≤ f.instruction_location ∧
      f.instruction_location < (comp.memory.length : Int)) :
    ((∀ f ∈ comp.flags,
        find_symbol comp SymbolType.SYMBOL_LINE f.target_line_number ≠ none) →
      (resolve_flags comp).has_error = comp.has_error ∧
      ∀ f ∈ comp.flags, ∀ s,
        find_symbol comp SymbolType.SYMBOL_LINE f.target_line_number = some s →
        memGet (resolve_flags comp).memory f.instruction_location =
          Int.tdiv (memGet comp.memory f.instruction_location) 100 * 100 +
            s.location ∧
        (0 ≤ memGet comp.memory f.instruction_location → 0 ≤ s.location →
         s.location < 100 →
         Int.tdiv (memGet (resolve_flags comp).memory f.instruction_location) 100 =
           Int.tdiv (memGet comp.memory f.instruction_location) 100 ∧
         Int.tmod (memGet (resolve_flags comp).memory f.instruction_location) 100 =
           s.location)) ∧
    (∀ pre f post, comp.flags = pre ++ f :: post →
      (∀ g ∈ pre,
        find_symbol comp SymbolType.SYMBOL_LINE g.target_line_number ≠ none) →
      find_symbol comp SymbolType.SYMBOL_LINE f.target_line_number = none →
      (resolve_flags comp).has_error = true ∧
      (resolve_flags comp).error_message =
        "Undefined line number: " ++ toString f.target_line_number) := by
  unfold resolve_flags
  constructor
  · intro hall
    have h0 : ∀ f ∈ comp.flags, 0 ≤ f.instruction_location :=
      fun f hf => (hrange f hf).1
    obtain ⟨_, e2, _, _⟩ := resolve_aux_found comp.flags comp h0 hall
    refine ⟨e2, ?_⟩
    intro f hf s hfs
    have hword := resolve_aux_patch comp.flags comp hnd hrange hall f hf s hfs
    refine ⟨hword, ?_⟩
    intro hnn hs0 hs1
    have hop : 0 ≤ Int.tdiv (memGet comp.memory f.instruction_location) 100 := by
      have h1 := Int.tdiv_add_tmod (memGet comp.memory f.instruction_location) 100
      have h2 := Int.tmod_nonneg 100 hnn
      have h3 := Int.tmod_lt_of_pos (memGet comp.memory f.instruction_location)
        (by decide : (0:Int) < 100)
      omega
    rw [hword]
    exact tdiv_tmod_decompose _ s.location hop hs0 hs1
  · intro pre f post heq hpre hf
    rw [heq]
    exact resolve_aux_missing pre f post comp hpre hf

/-- C4 witness: resolving the single recorded flag of `c4_state` patches
cell 3 from the placeholder 4000 to 4007. -/
theorem C4_resolve_flags_correct_witness :
    (c4_state.flags.map (fun f => f.instruction_location)).Nodup ∧
    (∀ f ∈ c4_state.flags, 0 ≤ f.instruction_location ∧
      f.instruction_location < (c4_state.memory.length : Int)) ∧
    (∀ f ∈ c4_state.flags,
      find_symbol c4_state SymbolType.SYMBOL_LINE f.target_line_number ≠ none) ∧
    (resolve_flags c4_state).has_error = c4_state.has_error ∧
    (∀ f ∈ c4_state.flags, ∀ s,
      find_symbol c4_state SymbolType.SYMBOL_LINE f.target_line_number = some s →
      memGet (resolve_flags c4_state).memory f.instruction_location =
        Int.tdiv (memGet c4_state.memory f.instruction_location) 100 * 100 +
          s.location ∧
      (0 ≤ memGet c4_state.memory f.instruction_location → 0 ≤ s.location →
       s.location < 100 →
       Int.tdiv (memGet (resolve_flags c4_state).memory f.instruction_location) 100 =
         Int.tdiv (memGet c4_state.memory f.instruction_location) 100 ∧
       Int.tmod (memGet (resolve_flags c4_state).memory f.instruction_location) 100 =
         s.location)) :=
  ⟨by decide, by decide, by decide,
    (C4_resolve_flags_correct c4_state (by decide) (by decide)).1 (by decide)⟩

/-! ## Claim C2 -/

/-- C2 counterexample: the program "10 let x = a(0) / 20 end" reads the
never-assigned array element `a(0)`, yet the run finishes with no error
and stores 0 into `x`; `parse_primary` applies the initialized check only
to scalars (see the final two conjuncts: a bare uninitialized array read
yields value 0 and raises no error). -/
theorem C2_counterexample :
    (interpreter_run 5 (interpreter_load interpreter_init c2_source) []).1 = true ∧
    (interpreter_run 5 (interpreter_load interpreter_init c2_source) []).2.1.has_error =
      false ∧
    (interpreter_run 5 (interpreter_load interpreter_init c2_source) []).2.1.error_message =
      "" ∧
    ((interpreter_run 5 (interpreter_load interpreter_init c2_source) []).2.1.arrays.getD 0
      defaultInterpArray).initialized = false ∧
    (interpreter_run 5 (interpreter_load interpreter_init c2_source) []).2.1.vars.getD 23
      defaultIVariable = { value := CDouble.ofInt 0, initialized := true } ∧
    (interpParse 20 PCall.primary c2_parse_state).1 = CDouble.ofInt 0 ∧
    (interpParse 20 PCall.primary c2_parse_state).2.has_error = false := by
  refine ⟨by decide, by decide, by decide, by decide, by decide, by decide, by decide⟩

/-- C2 (amended): the "Uninitialized variable" check does hold for
scalars: a scalar read (identifier not followed by a parenthesis) errors
out exactly when the slot was never assigned, and returns the stored
value untouched otherwise.  Array reads are not checked (see the
counterexample). -/
theorem C2_scalar_reads (gas : Nat) (it : Interpreter)
    (htok : it.current_token.type = TokenType.TOKEN_IDENT)
    (hidx : 0 ≤ var_index (it.current_token.text.headD NUL))
    (hnl : ¬ (interp_advance_token it).current_token.type = TokenType.TOKEN_LPAREN) :
    (((interp_advance_token it).vars.getD
        (var_index (it.current_token.text.headD NUL)).toNat
        defaultIVariable).initialized = false →
      (interpParse (gas + 1) PCall.primary it).2.has_error = true ∧
      (interpParse (gas + 1) PCall.primary it).2.error_message =
        "Uninitialized variable: " ++
          String.mk [Char.ofNat
            (97 + (var_index (it.current_token.text.headD NUL)).toNat)]) ∧
    (((interp_advance_token it).vars.getD
        (var_index (it.current_token.text.headD NUL)).toNat
        defaultIVariable).initialized = true →
      (interpParse (gas + 1) PCall.primary it).1 =
        ((interp_advance_token it).vars.getD
          (var_index (it.current_token.text.headD NUL)).toNat
          defaultIVariable).value ∧
      (interpParse (gas + 1) PCall.primary it).2 = interp_advance_token it) := by
  unfold interpParse
  dsimp only
  rw [if_neg (by rw [htok]; decide :
      ¬ (it.current_token.type = TokenType.TOKEN_NUMBER ∨
         it.current_token.type = TokenType.TOKEN_FLOAT)),
    if_pos htok,
    if_neg (not_lt.mpr hidx),
    if_neg hnl]
  constructor
  · intro hini
    rw [if_pos hini]
    exact ⟨rfl, rfl⟩
  · intro hini
    rw [if_neg (by rw [hini]; decide :
      ¬ ((interp_advance_token it).vars.getD
          (var_index (it.current_token.text.headD NUL)).toNat
          defaultIVariable).initialized = false)]
    exact ⟨rfl, rfl⟩

/-- C2 witness: the scalar-read dichotomy applied to a state about to read
the unassigned scalar `x`. -/
theorem C2_scalar_reads_witness :
    c2_scalar_state.current_token.type = TokenType.TOKEN_IDENT ∧
    0 ≤ var_index (c2_scalar_state.current_token.text.headD NUL) ∧
    ¬ (interp_advance_token c2_scalar_state).current_token.type =
        TokenType.TOKEN_LPAREN ∧
    ((((interp_advance_token c2_scalar_state).vars.getD
        (var_index (c2_scalar_state.current_token.text.headD NUL)).toNat
        defaultIVariable).initialized = false →
      (interpParse (19 + 1) PCall.primary c2_scalar_state).2.has_error = true ∧
      (interpParse (19 + 1) PCall.primary c2_scalar_state).2.error_message =
        "Uninitialized variable: " ++
          String.mk [Char.ofNat
            (97 + (var_index (c2_scalar_state.current_token.text.headD NUL)).toNat)]) ∧
    ((((interp_advance_token c2_scalar_state).vars.getD
        (var_index (c2_scalar_state.current_token.text.headD NUL)).toNat
        defaultIVariable).initialized = true →
      (interpParse (19 + 1) PCall.primary c2_scalar_state).1 =
        ((interp_advance_token c2_scalar_state).vars.getD
          (var_index (c2_scalar_state.current_token.text.headD NUL)).toNat
          defaultIVariable).value ∧
      (interpParse (19 + 1) PCall.primary c2_scalar_state).2 =
        interp_advance_token c2_scalar_state))) :=
  ⟨by decide, by decide, by decide,
    C2_scalar_reads 19 c2_scalar_state (by decide) (by decide) (by decide)⟩

/-! ## Claim C7 -/

/-- C7 counterexample: executing "10 for i = 5 to 3 step 0" pushes a loop
frame and leaves the current line unchanged even though neither
(step > 0 ∧ start ≤ end) nor (step < 0 ∧ start ≥ end) holds — the C code
treats every non-positive step (including 0) by the descending-loop test
`end ≤ start`. -/
theorem C7_counterexample :
    (execute_line 200 c7_state []).1.for_stack.length = 1 ∧
    (execute_line 200 c7_state []).1.current_line_index = 0 ∧
    (execute_line 200 c7_state []).1.has_error = false ∧
    ¬ ((dLt (CDouble.ofInt 0) (CDouble.ofInt 0) = true ∧
        dLe (CDouble.ofInt 5) (CDouble.ofInt 3) = true) ∨
       (dLt (CDouble.ofInt 0) (CDouble.ofInt 0) = true ∧
        dLe (CDouble.ofInt 3) (CDouble.ofInt 5) = true)) := by
  refine ⟨by decide, by decide, by decide, by decide⟩

/-- C7 (amended): after parsing `var = start TO end [STEP step]` and
assigning the start value, `exec_for_core` pushes a loop frame (body start
taken from the line after the FOR line) exactly when
(step > 0 ∧ start ≤ end) ∨ (step ≤ 0 ∧ end ≤ start) — the second disjunct
admits step = 0 — and otherwise scans forward for the matching NEXT. -/
theorem C7_for_core_characterisation (it : Interpreter) (loop_var : Char)
    (idx : Int) (start_value end_value step : CDouble)
    (hdepth : it.for_stack.length < MAX_FOR_DEPTH) :
    exec_for_core it loop_var idx start_value end_value step =
      (if (if dLt (CDouble.ofInt 0) step then dLe start_value end_value
           else dLe end_value start_value) = true then
        { it with
            vars := it.vars.set idx.toNat
              { value := start_value, initialized := true },
            for_stack := it.for_stack ++
              [{ var := loop_var,
                 end_value := end_value,
                 step := step,
                 loop_start :=
                   (it.lines.getD (it.current_line_index + 1).toNat
                     defaultLineInfo).start,
                 next_line_index := -1 }] }
      else
        exec_for_scan (it.lines.length + 1) (it.current_line_index + 1) 1
          { it with
              vars := it.vars.set idx.toNat
                { value := start_value, initialized := true } }) := by
  unfold exec_for_core
  dsimp only
  by_cases hc : (if dLt (CDouble.ofInt 0) step then dLe start_value end_value
      else dLe end_value start_value) = true
  · rw [if_pos hc, if_pos hc,
      if_neg (by omega : ¬ MAX_FOR_DEPTH ≤ it.for_stack.length)]
  · rw [if_neg hc, if_neg hc]

/-- C7 witness: the characterisation applied to the fresh interpreter with
the counterexample values start 5, end 3, step 0. -/
theorem C7_for_core_characterisation_witness :
    interpreter_init.for_stack.length < MAX_FOR_DEPTH ∧
    exec_for_core interpreter_init 'i' 8 (CDouble.ofInt 5) (CDouble.ofInt 3)
        (CDouble.ofInt 0) =
      (if (if dLt (CDouble.ofInt 0) (CDouble.ofInt 0) then
            dLe (CDouble.ofInt 5) (CDouble.ofInt 3)
           else dLe (CDouble.ofInt 3) (CDouble.ofInt 5)) = true then
        { interpreter_init with
            vars := interpreter_init.vars.set (8 : Int).toNat
              { value := CDouble.ofInt 5, initialized := true },
            for_stack := interpreter_init.for_stack ++
              [{ var := 'i',
                 end_value := CDouble.ofInt 3,
                 step := CDouble.ofInt 0,
                 loop_start :=
                   (interpreter_init.lines.getD
                     (interpreter_init.current_line_index + 1).toNat
                     defaultLineInfo).start,
                 next_line_index := -1 }] }
      else
        exec_for_scan (interpreter_init.lines.length + 1)
          (interpreter_init.current_line_index + 1) 1
          { interpreter_init with
              vars := interpreter_init.vars.set (8 : Int).toNat
                { value := CDouble.ofInt 5, initialized := true } }) :=
  ⟨by decide,
    C7_for_core_characterisation interpreter_init 'i' 8 (CDouble.ofInt 5)
      (CDouble.ofInt 3) (CDouble.ofInt 0) (by decide)⟩

/-! ## Claim C8 -/

/-- Whitespace skipping never touches the source text. -/
theorem skip_whitespace_source : ∀ (gas : Nat) (l : Lexer),
    (skip_whitespace gas l).source = l.source := by
  intro gas
  induction gas with
  | zero => intro l; rfl
  | succ g ih =>
    intro l
    unfold skip_whitespace
    dsimp only
    split
    · exact ih (lexAdvance l).2
    · rfl

/-- The digit loop never touches the source text. -/
theorem scan_digits_source : ∀ (gas : Nat) (l : Lexer),
    (scan_digits gas l).source = l.source := by
  intro gas
  induction gas with
  | zero => intro l; rfl
  | succ g ih =>
    intro l
    unfold scan_digits
    split
    · exact ih (lexAdvance l).2
    · rfl

/-- The string-body loop never touches the source text. -/
theorem scan_string_loop_source : ∀ (gas : Nat) (l : Lexer),
    (scan_string_loop gas l).source = l.source := by
  intro gas
  induction gas with
  | zero => intro l; rfl
  | succ g ih =>
    intro l
    unfold scan_string_loop
    split
    · split
      · rfl
      · exact ih (lexAdvance l).2
    · rfl

/-- The identifier loop never touches the source text. -/
theorem scan_ident_loop_source : ∀ (gas : Nat) (l : Lexer),
    (scan_ident_loop gas l).source = l.source := by
  intro gas
  induction gas with
  | zero => intro l; rfl
  | succ g ih =>
    intro l
    unfold scan_ident_loop
    split
    · exact ih (lexAdvance l).2
    · rfl

/-- `scan_number` never touches the source text. -/
theorem scan_number_source (l : Lexer) : (scan_number l).2.source = l.source := by
  unfold scan_number
  dsimp only
  split
  · exact (scan_digits_source _ _).trans (scan_digits_source _ _)
  · exact scan_digits_source _ _

/-- `scan_string` never touches the source text. -/
theorem scan_string_source (l : Lexer) : (scan_string l).2.source = l.source := by
  unfold scan_string
  dsimp only
  split
  · exact scan_string_loop_source _ _
  · split
    · exact scan_string_loop_source _ _
    · exact scan_string_loop_source _ _

/-- `scan_identifier` never touches the source text. -/
theorem scan_identifier_source (l : Lexer) :
    (scan_identifier l).2.source = l.source := by
  unfold scan_identifier
  dsimp only
  split
  · exact scan_ident_loop_source _ _
  · exact scan_ident_loop_source _ _

/-- `lexMatch` never touches the source text. -/
theorem lexMatch_source (l : Lexer) (c : Char) :
    (lexMatch l c).2.source = l.source := by
  unfold lexMatch
  split
  · rfl
  · split
    · rfl
    · rfl

/-- `lexer_next_token` never touches the source text (it only moves the
cursor fields). -/
theorem lexer_next_token_source (l : Lexer) :
    (lexer_next_token l).2.source = l.source := by
  have hskip := skip_whitespace_source (l.source.length + 1) l
  unfold lexer_next_token
  generalize hw : skip_whitespace (l.source.length + 1) l = w at hskip ⊢
  dsimp only
  have h2 : ({ w with start := w.current } : Lexer).source = l.source := hskip
  have h3 : (lexAdvance { w with start := w.current }).2.source = l.source := hskip
  generalize hA : lexAdvance { w with start := w.current } = a at h3 ⊢
  by_cases hE : is_at_end { w with start := w.current } = true
  · rw [if_pos hE]
    exact h2
  · rw [if_neg hE]
    by_cases c1 : a.1 = '\n'
    · rw [if_pos c1]
      exact h3
    rw [if_neg c1]
    by_cases c2 : isdigit a.1 = true
    · rw [if_pos c2]
      exact (scan_number_source _).trans h3
    rw [if_neg c2]
    by_cases c3 : isalpha a.1 = true ∨ a.1 = '_'
    · rw [if_pos c3]
      exact (scan_identifier_source _).trans h3
    rw [if_neg c3]
    by_cases c4 : a.1 = '"'
    · rw [if_pos c4]
      exact (scan_string_source _).trans h3
    rw [if_neg c4]
    by_cases c5 : a.1 = '+'
    · rw [if_pos c5]
      exact h3
    rw [if_neg c5]
    by_cases c6 : a.1 = '-'
    · rw [if_pos c6]
      exact h3
    rw [if_neg c6]
    by_cases c7 : a.1 = '*'
    · rw [if_pos c7]
      exact h3
    rw [if_neg c7]
    by_cases c8 : a.1 = '/'
    · rw [if_pos c8]
      exact h3
    rw [if_neg c8]
    by_cases c9 : a.1 = '%'
    · rw [if_pos c9]
      exact h3
    rw [if_neg c9]
    by_cases c10 : a.1 = '^'
    · rw [if_pos c10]
      exact h3
    rw [if_neg c10]
    by_cases c11 : a.1 = ','
    · rw [if_pos c11]
      exact h3
    rw [if_neg c11]
    by_cases c12 : a.1 = '('
    · rw [if_pos c12]
      exact h3
    rw [if_neg c12]
    by_cases c13 : a.1 = ')'
    · rw [if_pos c13]
      exact h3
    rw [if_neg c13]
    by_cases c14 : a.1 = '='
    · rw [if_pos c14]
      exact (lexMatch_source _ _).trans h3
    rw [if_neg c14]
    by_cases c15 : a.1 = '!'
    · rw [if_pos c15]
      by_cases cm : (lexMatch a.2 '=').1 = true
      · rw [if_pos cm]
        exact (lexMatch_source _ _).trans h3
      · rw [if_neg cm]
        exact (lexMatch_source _ _).trans h3
    rw [if_neg c15]
    by_cases c16 : a.1 = '<'
    · rw [if_pos c16]
      exact (lexMatch_source _ _).trans h3
    rw [if_neg c16]
    by_cases c17 : a.1 = '>'
    · rw [if_pos c17]
      exact (lexMatch_source _ _).trans h3
    · rw [if_neg c17]
      exact h3

/-- C8: peeking returns exactly the token the next call would return, and
restores every observable lexer field (start, current, line, column; the
source text is never written by the scanner), so the lexer state is
unchanged. -/
theorem C8_peek_is_next (l : Lexer) :
    (lexer_peek_token l).1 = (lexer_next_token l).1 ∧
    (lexer_peek_token l).2 = l := by
  refine ⟨rfl, ?_⟩
  show (⟨(lexer_next_token l).2.source, l.start, l.current, l.line, l.column⟩ :
    Lexer) = l
  rw [lexer_next_token_source l]
